import Mathlib

/-!
# NozzleNAT: port-map table and connection events of `esp32_nat_router.c`

A shallow embedding of the port-forwarding table manager
(`apply_portmap_tab`, `delete_portmap_tab`, `get_portmap_tab`, `add_portmap`,
`del_portmap`) and of `wifi_event_handler` from
`versions/T-SIM7070G/esp32_nat_router.c`.

* The C globals become the record `Globals`, passed and returned explicitly.
* Calls into the NVS store, the NAT engine, the WiFi driver, the netif layer and
  the event group are recorded, in program order, as a list of `Call`s.
* What those external calls return is an input of the model (`NvsWrite`,
  `NvsRead`, a Boolean for the DNS query), so every theorem quantifies over all
  outcomes.
* `IP_PORTMAP_MAX` comes from the lwIP headers; it is a parameter everywhere.
* Logging (`ESP_LOGI`) has no effect on the modelled state and is left out.
-/

namespace NozzleNAT

/-! ## Error codes (`esp_err.h`, `nvs.h`) -/

/-- The type `esp_err_t` is a C `int`. -/
abbrev esp_err_t := Int

def ESP_OK : esp_err_t := 0
def ESP_FAIL : esp_err_t := -1
def ESP_ERR_NO_MEM : esp_err_t := 0x101
def ESP_ERR_NVS_BASE : esp_err_t := 0x1100
def ESP_ERR_NVS_NOT_FOUND : esp_err_t := ESP_ERR_NVS_BASE + 0x02
def ESP_ERR_NVS_INVALID_LENGTH : esp_err_t := ESP_ERR_NVS_BASE + 0x0c

/-! ## Data model -/

/-- One slot of the table, `struct portmap_table_entry`:
`u32_t daddr; u16_t mport; u16_t dport; u8_t proto; u8_t valid;`. -/
structure portmap_table_entry where
  daddr : Nat
  mport : Nat
  dport : Nat
  proto : Nat
  valid : Nat
deriving DecidableEq, Repr

/-- A slot of static storage before anything is written to it, and what
`memset(.., 0, ..)` leaves in a slot. -/
def zero_entry : portmap_table_entry := ⟨0, 0, 0, 0, 0⟩

/-- The fields of an entry fit their C types. -/
def entry_in_range (e : portmap_table_entry) : Prop :=
  e.daddr < 2 ^ 32 ∧ e.mport < 2 ^ 16 ∧ e.dport < 2 ^ 16 ∧ e.proto < 2 ^ 8 ∧ e.valid < 2 ^ 8

instance (e : portmap_table_entry) : Decidable (entry_in_range e) := by
  unfold entry_in_range; infer_instance

/-- The global variables of the file that the modelled functions read or write:
`connect_count`, `ap_connect`, `my_ip` and `portmap_tab[IP_PORTMAP_MAX]`. -/
structure Globals where
  connect_count : Nat
  ap_connect : Bool
  my_ip : Nat
  portmap_tab : List portmap_table_entry
deriving DecidableEq, Repr

/-- The globals as the C initialisers leave them (`connect_count = 0`,
`ap_connect = false`, zeroed static storage for the rest). -/
def boot (IP_PORTMAP_MAX : Nat) : Globals :=
  ⟨0, false, 0, List.replicate IP_PORTMAP_MAX zero_entry⟩

/-- Slot `i` of the table, `portmap_tab[i]`. -/
def slot (tab : List portmap_table_entry) (i : Nat) : portmap_table_entry :=
  tab.getD i zero_entry

/-- Calls that leave the modelled code, with the arguments the claims speak of. -/
inductive Call where
  | nvs_open
  | nvs_get_blob_len
  | nvs_get_blob
  | nvs_set_blob (blob : List Nat)
  | nvs_commit
  | nvs_close
  | ip_portmap_add (proto maddr mport daddr dport : Nat)
  | ip_portmap_remove (proto mport : Nat)
  | esp_wifi_connect
  | esp_netif_get_dns_info
  | esp_netif_set_dns_info
  | xEventGroupSetBits
  | xEventGroupClearBits
deriving DecidableEq, Repr

/-- Calls to the NAT engine. -/
def Call.is_nat : Call → Bool
  | .ip_portmap_add _ _ _ _ _ => true
  | .ip_portmap_remove _ _ => true
  | _ => false

/-- What a modelled function leaves behind: the globals, the value returned and
the external calls made, in order. -/
structure Outcome where
  globals : Globals
  ret : esp_err_t
  calls : List Call
deriving DecidableEq, Repr

/-- Results of the store calls made while persisting the table:
`nvs_open`, `nvs_set_blob`, `nvs_commit`. -/
structure NvsWrite where
  open_err : esp_err_t
  set_err : esp_err_t
  commit_err : esp_err_t
deriving DecidableEq, Repr

/-- Results of the store calls made by `get_portmap_tab`: `nvs_open`, the
length query `nvs_get_blob(.., NULL, &len)` with the length it reports, and the
reading `nvs_get_blob(.., portmap_tab, &len)` with the bytes it copies. -/
structure NvsRead where
  open_err : esp_err_t
  len_err : esp_err_t
  len : Nat
  read_err : esp_err_t
  data : List Nat
deriving DecidableEq, Repr

/-! ## The stored blob: the bytes of `portmap_tab` -/

/-- Size of one entry in bytes: 4 + 2 + 2 + 1 + 1 and two bytes of tail padding
for the 4-byte alignment of `daddr`. -/
def sizeof_entry : Nat := 12

/-- The value of `sizeof(portmap_tab)`. -/
def sizeof_portmap_tab (IP_PORTMAP_MAX : Nat) : Nat := IP_PORTMAP_MAX * sizeof_entry

/-- The bytes of one entry in memory (little-endian target, fields in
declaration order, padding bytes read as 0). -/
def entry_bytes (e : portmap_table_entry) : List Nat :=
  [e.daddr % 256, e.daddr / 256 % 256, e.daddr / 65536 % 256, e.daddr / 16777216 % 256,
   e.mport % 256, e.mport / 256 % 256,
   e.dport % 256, e.dport / 256 % 256,
   e.proto % 256,
   e.valid % 256,
   0, 0]

/-- The bytes of the whole array, as handed to `nvs_set_blob`. -/
def portmap_tab_bytes : List portmap_table_entry → List Nat
  | [] => []
  | e :: tab => entry_bytes e ++ portmap_tab_bytes tab

/-- The entry that twelve bytes of memory denote. -/
def entry_of_bytes (b : List Nat) : portmap_table_entry :=
  { daddr := b.getD 0 0 + 256 * b.getD 1 0 + 65536 * b.getD 2 0 + 16777216 * b.getD 3 0
    mport := b.getD 4 0 + 256 * b.getD 5 0
    dport := b.getD 6 0 + 256 * b.getD 7 0
    proto := b.getD 8 0
    valid := b.getD 9 0 }

/-- The array of `n` entries that `n * 12` bytes of memory denote. -/
def portmap_tab_of_bytes : Nat → List Nat → List portmap_table_entry
  | 0, _ => []
  | n + 1, b => entry_of_bytes (b.take sizeof_entry) :: portmap_tab_of_bytes n (b.drop sizeof_entry)

/-! ## The table functions -/

/-- The scan `for (int i = ..; i < IP_PORTMAP_MAX; i++) if (cond(portmap_tab[i])) ..`
with an early exit: the first index, among the `k` slots from `i` on, whose slot
satisfies `cond`. -/
def first_slot (cond : portmap_table_entry → Bool) (tab : List portmap_table_entry)
    (i : Nat) : Nat → Option Nat
  | 0 => none
  | k + 1 => if cond (slot tab i) then some i else first_slot cond tab (i + 1) k

/-- The test `!portmap_tab[i].valid` of `add_portmap`. -/
def is_free (e : portmap_table_entry) : Bool := e.valid == 0

/-- The test `portmap_tab[i].valid && portmap_tab[i].mport == mport &&
portmap_tab[i].proto == proto` of `del_portmap`. -/
def is_match (proto mport : Nat) (e : portmap_table_entry) : Bool :=
  e.valid != 0 && e.mport == mport && e.proto == proto

/-- The block shared by `add_portmap` and `del_portmap` that stores the table:
`nvs_open`, and when that succeeded `nvs_set_blob`, `nvs_commit` only after a
successful `nvs_set_blob`, then `nvs_close`. Returns the calls made and whether
the function goes on (`none`) or returns the error of `nvs_open`. -/
def store_portmap_tab (nvs : NvsWrite) (tab : List portmap_table_entry) :
    List Call × Option esp_err_t :=
  if nvs.open_err ≠ ESP_OK then ([Call.nvs_open], some nvs.open_err)
  else
    ([Call.nvs_open, Call.nvs_set_blob (portmap_tab_bytes tab)]
      ++ (if nvs.set_err = ESP_OK then [Call.nvs_commit] else [])
      ++ [Call.nvs_close], none)

/-- The function `apply_portmap_tab`: one `ip_portmap_add` per valid slot. It
returns `ESP_OK` always; only its calls are kept. -/
def apply_portmap_tab (IP_PORTMAP_MAX : Nat) (g : Globals) : List Call :=
  (List.range IP_PORTMAP_MAX).filterMap fun i =>
    if (slot g.portmap_tab i).valid ≠ 0 then
      some (Call.ip_portmap_add (slot g.portmap_tab i).proto g.my_ip
        (slot g.portmap_tab i).mport (slot g.portmap_tab i).daddr (slot g.portmap_tab i).dport)
    else none

/-- The function `delete_portmap_tab`: one `ip_portmap_remove` per valid slot. -/
def delete_portmap_tab (IP_PORTMAP_MAX : Nat) (g : Globals) : List Call :=
  (List.range IP_PORTMAP_MAX).filterMap fun i =>
    if (slot g.portmap_tab i).valid ≠ 0 then
      some (Call.ip_portmap_remove (slot g.portmap_tab i).proto (slot g.portmap_tab i).mport)
    else none

/-- The function `get_portmap_tab`. -/
def get_portmap_tab (IP_PORTMAP_MAX : Nat) (nvs : NvsRead) (g : Globals) : Outcome :=
  if nvs.open_err ≠ ESP_OK then ⟨g, nvs.open_err, [Call.nvs_open]⟩
  else if nvs.len_err = ESP_OK then
    if nvs.len ≠ sizeof_portmap_tab IP_PORTMAP_MAX then
      ⟨g, ESP_ERR_NVS_INVALID_LENGTH, [Call.nvs_open, Call.nvs_get_blob_len, Call.nvs_close]⟩
    else if nvs.read_err ≠ ESP_OK then
      ⟨{ g with portmap_tab := List.replicate IP_PORTMAP_MAX zero_entry }, nvs.read_err,
        [Call.nvs_open, Call.nvs_get_blob_len, Call.nvs_get_blob, Call.nvs_close]⟩
    else
      ⟨{ g with portmap_tab := portmap_tab_of_bytes IP_PORTMAP_MAX nvs.data }, ESP_OK,
        [Call.nvs_open, Call.nvs_get_blob_len, Call.nvs_get_blob, Call.nvs_close]⟩
  else ⟨g, nvs.len_err, [Call.nvs_open, Call.nvs_get_blob_len, Call.nvs_close]⟩

/-- The function `add_portmap`. The arguments have the C types of the fields
they are stored in (`u8_t proto, u16_t mport, u32_t daddr, u16_t dport`), so the
stores convert nothing. -/
def add_portmap (IP_PORTMAP_MAX : Nat) (nvs : NvsWrite) (proto mport daddr dport : Nat)
    (g : Globals) : Outcome :=
  match first_slot is_free g.portmap_tab 0 IP_PORTMAP_MAX with
  | some i =>
    let e : portmap_table_entry :=
      { daddr := daddr, mport := mport, dport := dport, proto := proto, valid := 1 }
    let g1 : Globals := { g with portmap_tab := g.portmap_tab.set i e }
    match store_portmap_tab nvs g1.portmap_tab with
    | (cs, some err) => ⟨g1, err, cs⟩
    | (cs, none) => ⟨g1, ESP_OK, cs ++ [Call.ip_portmap_add proto g1.my_ip mport daddr dport]⟩
  | none => ⟨g, ESP_ERR_NO_MEM, []⟩

/-- The function `del_portmap`. -/
def del_portmap (IP_PORTMAP_MAX : Nat) (nvs : NvsWrite) (proto mport : Nat)
    (g : Globals) : Outcome :=
  match first_slot (is_match proto mport) g.portmap_tab 0 IP_PORTMAP_MAX with
  | some i =>
    let e : portmap_table_entry := slot g.portmap_tab i
    let g1 : Globals := { g with portmap_tab := g.portmap_tab.set i { e with valid := 0 } }
    match store_portmap_tab nvs g1.portmap_tab with
    | (cs, some err) => ⟨g1, err, cs⟩
    | (cs, none) => ⟨g1, ESP_OK, cs ++ [Call.ip_portmap_remove proto mport]⟩
  | none => ⟨g, ESP_OK, []⟩

/-! ## The event handler -/

/-- The events `wifi_event_handler` tells apart; `IP_EVENT_STA_GOT_IP` carries
`event->ip_info.ip.addr`. -/
inductive Event where
  | WIFI_EVENT_STA_START
  | WIFI_EVENT_STA_DISCONNECTED
  | IP_EVENT_STA_GOT_IP (addr : Nat)
  | WIFI_EVENT_AP_STACONNECTED
  | WIFI_EVENT_AP_STADISCONNECTED
  | other
deriving DecidableEq, Repr

/-- The function `wifi_event_handler`; `dns_ok` says whether
`esp_netif_get_dns_info` returned `ESP_OK`. The counter `connect_count` is a
`uint16_t`, so `++` and `--` wrap modulo `2 ^ 16`. -/
def wifi_event_handler (IP_PORTMAP_MAX : Nat) (dns_ok : Bool) (ev : Event) (g : Globals) :
    Globals × List Call :=
  match ev with
  | .WIFI_EVENT_STA_START => (g, [Call.esp_wifi_connect])
  | .WIFI_EVENT_STA_DISCONNECTED =>
    ({ g with ap_connect := false }, [Call.esp_wifi_connect, Call.xEventGroupClearBits])
  | .IP_EVENT_STA_GOT_IP addr =>
    let g1 : Globals := { g with ap_connect := true, my_ip := addr }
    (g1, delete_portmap_tab IP_PORTMAP_MAX g1 ++ apply_portmap_tab IP_PORTMAP_MAX g1
      ++ [Call.esp_netif_get_dns_info]
      ++ (if dns_ok then [Call.esp_netif_set_dns_info] else [])
      ++ [Call.xEventGroupSetBits])
  | .WIFI_EVENT_AP_STACONNECTED =>
    ({ g with connect_count := (g.connect_count + 1) % 2 ^ 16 }, [])
  | .WIFI_EVENT_AP_STADISCONNECTED =>
    ({ g with connect_count := (g.connect_count + 2 ^ 16 - 1) % 2 ^ 16 }, [])
  | .other => (g, [])

/-! ## The access-point configuration built by `wifi_init` -/

/-- The values of `wifi_auth_mode_t` that `wifi_init` assigns to
`ap_config.ap.authmode`. -/
inductive wifi_auth_mode_t where
  | WIFI_AUTH_OPEN
  | WIFI_AUTH_WPA2_PSK
  | WIFI_AUTH_WPA2_WPA3_PSK
deriving DecidableEq, Repr

/-- The fields of `wifi_ap_config_t` that `wifi_init` sets after `ap_config = {0}`.
A C string is the list of its bytes before the terminating NUL. -/
structure wifi_ap_config_t where
  ssid : List Nat
  password : List Nat
  ssid_len : Nat
  channel : Nat
  authmode : wifi_auth_mode_t
  ssid_hidden : Nat
  max_connection : Nat
  beacon_interval : Nat
deriving DecidableEq, Repr

/-- The string that `strlcpy(dst, src, size)` leaves in `dst` (for `size ≥ 1`):
the first `size - 1` characters of `src`. -/
def strlcpy (src : List Nat) (size : Nat) : List Nat := src.take (size - 1)

/-- The choice `(p && p[0]) ? p : dflt`; `none` is the null pointer. -/
def or_default (p : Option (List Nat)) (dflt : List Nat) : List Nat :=
  match p with
  | some (c :: cs) => c :: cs
  | _ => dflt

/-- The default `DEFAULT_AP_SSID` of the file, `"NozzleBOX"`. -/
def DEFAULT_AP_SSID : List Nat := [78, 111, 122, 122, 108, 101, 66, 79, 88]

/-- The default `DEFAULT_AP_PASS` of the file, `""`. -/
def DEFAULT_AP_PASS : List Nat := []

/-- The buffer `char ap_ssid_buf[33]` after the resolving `strlcpy`. The default
is a parameter: the `#define` of the file stands under `#ifndef`. -/
def ap_ssid_buf (default_ap_ssid : List Nat) (ap_ssid : Option (List Nat)) : List Nat :=
  strlcpy (or_default ap_ssid default_ap_ssid) 33

/-- The buffer `char ap_pass_buf[65]` after the resolving `strlcpy`: the resolved
AP passphrase. -/
def ap_pass_buf (default_ap_pass : List Nat) (ap_passwd : Option (List Nat)) : List Nat :=
  strlcpy (or_default ap_passwd default_ap_pass) 65

/-- The value of `ap_config.ap` that `wifi_init` builds and hands to
`esp_wifi_set_config(WIFI_IF_AP, &ap_config)`, as a function of the arguments
`ap_ssid` and `ap_passwd`. `sizeof_ssid` and `sizeof_password` are
`sizeof(ap_config.ap.ssid)` and `sizeof(ap_config.ap.password)` (declared in the
ESP-IDF headers), `wpa3_sae` says whether `CONFIG_ESP_WIFI_ENABLE_WPA3_SAE` is
defined. The statements of `wifi_init` between the resolving of the inputs and that
call do not write to the buffers or to `ap_config`. -/
def wifi_init_ap_config (wpa3_sae : Bool) (sizeof_ssid sizeof_password : Nat)
    (default_ap_ssid default_ap_pass : List Nat) (ap_ssid ap_passwd : Option (List Nat)) :
    wifi_ap_config_t :=
  let ssid : List Nat := strlcpy (ap_ssid_buf default_ap_ssid ap_ssid) sizeof_ssid
  if (ap_pass_buf default_ap_pass ap_passwd).length < 8 then
    { ssid := ssid, password := [], ssid_len := ssid.length, channel := 6,
      authmode := wifi_auth_mode_t.WIFI_AUTH_OPEN, ssid_hidden := 0, max_connection := 8,
      beacon_interval := 100 }
  else
    { ssid := ssid, password := strlcpy (ap_pass_buf default_ap_pass ap_passwd) sizeof_password,
      ssid_len := ssid.length, channel := 6,
      authmode := if wpa3_sae then wifi_auth_mode_t.WIFI_AUTH_WPA2_WPA3_PSK
        else wifi_auth_mode_t.WIFI_AUTH_WPA2_PSK,
      ssid_hidden := 0, max_connection := 8, beacon_interval := 100 }

/-! ## Vocabulary of the claims -/

/-- A slot is occupied when its valid flag is non-zero. -/
def occupied (e : portmap_table_entry) : Prop := e.valid ≠ 0

instance (e : portmap_table_entry) : Decidable (occupied e) := by
  unfold occupied; infer_instance

/-- The occupied slots of a table, in slot order. -/
def occupied_slots (tab : List portmap_table_entry) : List portmap_table_entry :=
  tab.filter fun e => e.valid != 0

/-- The NAT engine calls among a list of calls, in order. -/
def nat_calls (cs : List Call) : List Call := cs.filter Call.is_nat

/-- An occupied slot whose protocol and external port are `proto` and `mport`. -/
def rule_matches (proto mport : Nat) (e : portmap_table_entry) : Prop :=
  occupied e ∧ e.mport = mport ∧ e.proto = proto

instance (proto mport : Nat) (e : portmap_table_entry) : Decidable (rule_matches proto mport e) := by
  unfold rule_matches; infer_instance

/-- The arguments of one call of `add_portmap`, with the results of its store
calls. -/
structure AddCall where
  nvs : NvsWrite
  proto : Nat
  mport : Nat
  daddr : Nat
  dport : Nat
deriving DecidableEq, Repr

/-- The arguments fit the parameter types `u8_t proto, u16_t mport, u32_t daddr,
u16_t dport`. -/
def AddCall.in_range (c : AddCall) : Prop :=
  c.proto < 2 ^ 8 ∧ c.mport < 2 ^ 16 ∧ c.daddr < 2 ^ 32 ∧ c.dport < 2 ^ 16

instance (c : AddCall) : Decidable c.in_range := by
  unfold AddCall.in_range; infer_instance

/-- A sequence of `add_portmap` calls, run in order. -/
def add_portmap_seq (IP_PORTMAP_MAX : Nat) : List AddCall → Globals → Globals
  | [], g => g
  | c :: cs, g =>
    add_portmap_seq IP_PORTMAP_MAX cs
      (add_portmap IP_PORTMAP_MAX c.nvs c.proto c.mport c.daddr c.dport g).globals

/-- A store that opens, holds `blob` under the key and reads it back. -/
def nvs_holding (blob : List Nat) : NvsRead := ⟨ESP_OK, ESP_OK, blob.length, ESP_OK, blob⟩

/-- The store calls of a mutation whose `nvs_open` succeeded. -/
def store_calls (nvs : NvsWrite) (tab : List portmap_table_entry) : List Call :=
  [Call.nvs_open, Call.nvs_set_blob (portmap_tab_bytes tab)]
    ++ (if nvs.set_err = ESP_OK then [Call.nvs_commit] else []) ++ [Call.nvs_close]

/-! ## The globals after a mutation that found its slot -/

/-- The table after `add_portmap` stored a rule in slot `j`. -/
def added (g : Globals) (j proto mport daddr dport : Nat) : Globals :=
  { g with portmap_tab := g.portmap_tab.set j ⟨daddr, mport, dport, proto, 1⟩ }

/-- The table after `del_portmap` cleared the valid flag of slot `j`. -/
def deleted (g : Globals) (j : Nat) : Globals :=
  let e : portmap_table_entry := slot g.portmap_tab j
  { g with portmap_tab := g.portmap_tab.set j ⟨e.daddr, e.mport, e.dport, e.proto, 0⟩ }

/-- A table of the right size whose fields all fit their C types. -/
def table_ok (IP_PORTMAP_MAX : Nat) (tab : List portmap_table_entry) : Prop :=
  tab.length = IP_PORTMAP_MAX ∧ ∀ e, e ∈ tab → entry_in_range e

/-! ## Sequences of table mutations -/

/-- One call of `add_portmap` or of `del_portmap`, with the results of its store
calls. -/
inductive TableOp where
  | add (nvs : NvsWrite) (proto mport daddr dport : Nat)
  | del (nvs : NvsWrite) (proto mport : Nat)
deriving DecidableEq, Repr

/-- The globals after one mutation. -/
def run_op (IP_PORTMAP_MAX : Nat) (op : TableOp) (g : Globals) : Globals :=
  match op with
  | .add nvs proto mport daddr dport =>
    (add_portmap IP_PORTMAP_MAX nvs proto mport daddr dport g).globals
  | .del nvs proto mport => (del_portmap IP_PORTMAP_MAX nvs proto mport g).globals

/-- The globals after a sequence of mutations, run in order. -/
def run_ops (IP_PORTMAP_MAX : Nat) : List TableOp → Globals → Globals
  | [], g => g
  | op :: ops, g => run_ops IP_PORTMAP_MAX ops (run_op IP_PORTMAP_MAX op g)

/-- The number of occupied slots of a table. -/
def occupied_count (tab : List portmap_table_entry) : Nat := (occupied_slots tab).length

/-! ## Concrete store outcomes, states and calls for the instances -/

/-- All store calls succeed. -/
def nvs_ok : NvsWrite := ⟨ESP_OK, ESP_OK, ESP_OK⟩

/-- The call `nvs_open` fails with `ESP_FAIL`. -/
def nvs_open_fails : NvsWrite := ⟨ESP_FAIL, ESP_OK, ESP_OK⟩

/-- Two slots, both occupied, the second with valid flag 7. -/
def full_table : Globals :=
  ⟨0, true, 167772161, [⟨3232236802, 22, 22, 6, 1⟩, ⟨3232236803, 53, 53, 17, 7⟩]⟩

/-- Three slots, a rule for TCP port 22 in slot 0. -/
def one_of_three : Globals :=
  ⟨0, false, 0, [⟨3232236802, 22, 22, 6, 1⟩, zero_entry, zero_entry]⟩

/-- Four slots, one rule for TCP port 80 in slot 0, station not connected. -/
def one_rule : Globals :=
  ⟨0, false, 0, [⟨3232236801, 80, 8080, 6, 1⟩, zero_entry, zero_entry, zero_entry]⟩

/-- Four slots, one rule for TCP port 80 in slot 2, the slots below it free. -/
def rule_in_slot_two : Globals :=
  ⟨0, false, 0, [zero_entry, zero_entry, ⟨3232236801, 80, 8080, 6, 1⟩, zero_entry]⟩

/-- Four slots, a rule for TCP port 22 in slot 0 and one for TCP port 80 in
slot 2, station connected with address 10.0.0.1. -/
def two_rules : Globals :=
  ⟨1, true, 167772161,
    [⟨3232236802, 22, 22, 6, 1⟩, zero_entry, ⟨3232236801, 80, 8080, 6, 1⟩, zero_entry]⟩

/-- Five mutations on a table of four slots: a delete that matches, three adds
(the second with a failing `nvs_open`), and a delete that matches nothing. -/
def five_ops : List TableOp :=
  [TableOp.del nvs_ok 6 80, TableOp.add nvs_ok 17 53 3232236803 5353,
    TableOp.add nvs_open_fails 6 443 3232236802 443, TableOp.add nvs_ok 6 8080 3232236804 80,
    TableOp.del nvs_ok 17 9]

/-- An accepted rule for TCP port 22. -/
def call_ssh : AddCall := ⟨nvs_ok, 6, 22, 3232236802, 22⟩

/-- A rule for UDP port 53 whose `nvs_commit` fails. -/
def call_dns : AddCall := ⟨⟨ESP_OK, ESP_OK, ESP_FAIL⟩, 17, 53, 3232236803, 5353⟩

/-! ## Facts about the scan -/

theorem is_free_iff (e : portmap_table_entry) : is_free e = true ↔ ¬ occupied e := by
  simp [is_free, occupied]

theorem is_match_iff (proto mport : Nat) (e : portmap_table_entry) :
    is_match proto mport e = true ↔ rule_matches proto mport e := by
  simp [is_match, rule_matches, occupied, and_assoc]

theorem first_slot_eq_none {cond : portmap_table_entry → Bool} {tab : List portmap_table_entry}
    {k i : Nat} :
    first_slot cond tab i k = none ↔ ∀ j, i ≤ j → j < i + k → cond (slot tab j) = false := by
  induction k generalizing i with
  | zero =>
    simp only [first_slot, true_iff]
    intro j h1 h2
    omega
  | succ k ih =>
    simp only [first_slot]
    by_cases hc : cond (slot tab i) = true
    · simp only [hc, if_true]
      constructor
      · intro h
        cases h
      · intro h
        have := h i (Nat.le_refl _) (by omega)
        simp [hc] at this
    · simp only [hc, if_false, Bool.false_eq_true]
      rw [ih]
      constructor
      · intro h j h1 h2
        by_cases hji : j = i
        · subst hji
          simpa using hc
        · exact h j (by omega) (by omega)
      · intro h j h1 h2
        exact h j (by omega) (by omega)

theorem first_slot_eq_some {cond : portmap_table_entry → Bool} {tab : List portmap_table_entry}
    {k i j : Nat} :
    first_slot cond tab i k = some j ↔
      i ≤ j ∧ j < i + k ∧ cond (slot tab j) = true ∧
        ∀ m, i ≤ m → m < j → cond (slot tab m) = false := by
  induction k generalizing i with
  | zero =>
    simp only [first_slot]
    constructor
    · intro h
      cases h
    · rintro ⟨h1, h2, -, -⟩
      omega
  | succ k ih =>
    simp only [first_slot]
    by_cases hc : cond (slot tab i) = true
    · simp only [hc, if_true, Option.some.injEq]
      constructor
      · intro h
        subst h
        exact ⟨Nat.le_refl _, by omega, hc, fun m h1 h2 => by omega⟩
      · rintro ⟨h1, -, -, h4⟩
        by_contra hne
        have := h4 i (Nat.le_refl _) (by omega)
        simp [hc] at this
    · simp only [hc, if_false, Bool.false_eq_true]
      rw [ih]
      constructor
      · rintro ⟨h1, h2, h3, h4⟩
        refine ⟨by omega, by omega, h3, fun m hm1 hm2 => ?_⟩
        by_cases hmi : m = i
        · subst hmi
          simpa using hc
        · exact h4 m (by omega) hm2
      · rintro ⟨h1, h2, h3, h4⟩
        have hij : i ≠ j := by
          rintro rfl
          exact hc h3
        exact ⟨by omega, by omega, h3, fun m hm1 hm2 => h4 m (by omega) hm2⟩

/-! ## Reading and writing slots -/

theorem slot_set_self {tab : List portmap_table_entry} {j : Nat} (e : portmap_table_entry)
    (hj : j < tab.length) : slot (tab.set j e) j = e := by
  simp [slot, List.getD_eq_getElem?_getD, hj]

theorem slot_set_ne {tab : List portmap_table_entry} {i j : Nat} (e : portmap_table_entry)
    (hij : i ≠ j) : slot (tab.set j e) i = slot tab i := by
  simp [slot, List.getD_eq_getElem?_getD, List.getElem?_set_ne (Ne.symm hij)]

/-! ## The two outcomes of a mutation that found its slot -/

theorem slot_deleted_self {g : Globals} {j : Nat} (hj : j < g.portmap_tab.length) :
    slot (deleted g j).portmap_tab j
      = ⟨(slot g.portmap_tab j).daddr, (slot g.portmap_tab j).mport,
          (slot g.portmap_tab j).dport, (slot g.portmap_tab j).proto, 0⟩ :=
  slot_set_self _ hj

theorem add_portmap_of_slot {IP_PORTMAP_MAX : Nat} {g : Globals} {j : Nat}
    (nvs : NvsWrite) (proto mport daddr dport : Nat)
    (h : first_slot is_free g.portmap_tab 0 IP_PORTMAP_MAX = some j) :
    add_portmap IP_PORTMAP_MAX nvs proto mport daddr dport g =
      if nvs.open_err ≠ ESP_OK then
        ⟨added g j proto mport daddr dport, nvs.open_err, [Call.nvs_open]⟩
      else
        ⟨added g j proto mport daddr dport, ESP_OK,
          store_calls nvs (added g j proto mport daddr dport).portmap_tab
            ++ [Call.ip_portmap_add proto g.my_ip mport daddr dport]⟩ := by
  by_cases ho : nvs.open_err = ESP_OK <;>
    simp [add_portmap, h, store_portmap_tab, added, store_calls, ho]

theorem del_portmap_of_slot {IP_PORTMAP_MAX : Nat} {g : Globals} {j : Nat}
    (nvs : NvsWrite) (proto mport : Nat)
    (h : first_slot (is_match proto mport) g.portmap_tab 0 IP_PORTMAP_MAX = some j) :
    del_portmap IP_PORTMAP_MAX nvs proto mport g =
      if nvs.open_err ≠ ESP_OK then ⟨deleted g j, nvs.open_err, [Call.nvs_open]⟩
      else
        ⟨deleted g j, ESP_OK,
          store_calls nvs (deleted g j).portmap_tab ++ [Call.ip_portmap_remove proto mport]⟩ := by
  by_cases ho : nvs.open_err = ESP_OK <;>
    simp [del_portmap, h, store_portmap_tab, deleted, store_calls, ho]

theorem del_portmap_of_none {IP_PORTMAP_MAX : Nat} {g : Globals}
    (nvs : NvsWrite) (proto mport : Nat)
    (h : first_slot (is_match proto mport) g.portmap_tab 0 IP_PORTMAP_MAX = none) :
    del_portmap IP_PORTMAP_MAX nvs proto mport g = ⟨g, ESP_OK, []⟩ := by
  simp only [del_portmap, h]

theorem exists_first_slot (cond : portmap_table_entry → Bool) (tab : List portmap_table_entry)
    (n : Nat) (h : ∃ i, i < n ∧ cond (slot tab i) = true) :
    ∃ j, first_slot cond tab 0 n = some j := by
  cases hfs : first_slot cond tab 0 n with
  | some j => exact ⟨j, rfl⟩
  | none =>
    obtain ⟨i, hi, hc⟩ := h
    rw [first_slot_eq_none] at hfs
    have := hfs i (Nat.zero_le _) (by omega)
    simp [hc] at this

/-! ## `add_portmap` on a full table -/

/-- C1: when every one of the `IP_PORTMAP_MAX` slots is occupied, `add_portmap`
returns `ESP_ERR_NO_MEM`, leaves the globals (so every slot of the table) as they
were, and makes no external call at all: nothing is written to the persistence
store and the NAT engine is not called. This holds for every rule and every
outcome of the store calls. -/
theorem add_portmap_table_full (IP_PORTMAP_MAX : Nat) (nvs : NvsWrite)
    (proto mport daddr dport : Nat) (g : Globals)
    (hfull : ∀ i, i < IP_PORTMAP_MAX → occupied (slot g.portmap_tab i)) :
    add_portmap IP_PORTMAP_MAX nvs proto mport daddr dport g = ⟨g, ESP_ERR_NO_MEM, []⟩ := by
  have hnone : first_slot is_free g.portmap_tab 0 IP_PORTMAP_MAX = none := by
    rw [first_slot_eq_none]
    intro j _ hj
    have := hfull j (by omega)
    simpa [is_free, occupied] using this
  simp only [add_portmap, hnone]

/-- C1 on a full table of two slots, one of them with valid flag 7. -/
theorem add_portmap_table_full_witness :
    (∀ i, i < 2 → occupied (slot full_table.portmap_tab i)) ∧
    add_portmap 2 nvs_ok 6 80 3232236801 8080 full_table = ⟨full_table, ESP_ERR_NO_MEM, []⟩ :=
  ⟨by decide, add_portmap_table_full 2 nvs_ok 6 80 3232236801 8080 full_table (by decide)⟩

/-! ## `add_portmap` on a table with a free slot -/

/-- C2: when the table (of `IP_PORTMAP_MAX` slots) has an unoccupied slot, then
whatever the store calls return, after `add_portmap` the lowest-indexed slot that
was unoccupied holds exactly the rule `(proto, mport, daddr, dport)` with valid
flag 1, every other slot is as before, and the table keeps its size. -/
theorem add_portmap_stores_rule (IP_PORTMAP_MAX : Nat) (nvs : NvsWrite)
    (proto mport daddr dport : Nat) (g : Globals)
    (hlen : g.portmap_tab.length = IP_PORTMAP_MAX)
    (hfree : ∃ i, i < IP_PORTMAP_MAX ∧ ¬ occupied (slot g.portmap_tab i)) :
    ∃ j, j < IP_PORTMAP_MAX ∧ ¬ occupied (slot g.portmap_tab j) ∧
      (∀ i, i < j → occupied (slot g.portmap_tab i)) ∧
      slot (add_portmap IP_PORTMAP_MAX nvs proto mport daddr dport g).globals.portmap_tab j
        = ⟨daddr, mport, dport, proto, 1⟩ ∧
      (∀ i, i ≠ j →
        slot (add_portmap IP_PORTMAP_MAX nvs proto mport daddr dport g).globals.portmap_tab i
          = slot g.portmap_tab i) ∧
      (add_portmap IP_PORTMAP_MAX nvs proto mport daddr dport g).globals.portmap_tab.length
        = IP_PORTMAP_MAX := by
  obtain ⟨j, hj⟩ := exists_first_slot is_free g.portmap_tab IP_PORTMAP_MAX (by
      obtain ⟨i, hi, hocc⟩ := hfree
      exact ⟨i, hi, by simpa [is_free, occupied] using hocc⟩)
  have hglob : (add_portmap IP_PORTMAP_MAX nvs proto mport daddr dport g).globals
      = added g j proto mport daddr dport := by
    rw [add_portmap_of_slot nvs proto mport daddr dport hj]
    split <;> rfl
  obtain ⟨-, hjn, hjc, hbelow⟩ := first_slot_eq_some.mp hj
  refine ⟨j, by omega, by simpa [is_free, occupied] using hjc, ?_, ?_, ?_, ?_⟩
  · intro i hi
    have := hbelow i (Nat.zero_le _) hi
    simpa [is_free, occupied] using this
  · rw [hglob]
    exact slot_set_self _ (by omega)
  · intro i hi
    rw [hglob]
    exact slot_set_ne _ hi
  · rw [hglob]
    simp [added, hlen]

/-- C2 on a table of three slots whose slot 0 is occupied, with a failing
`nvs_set_blob`. -/
theorem add_portmap_stores_rule_witness :
    one_of_three.portmap_tab.length = 3 ∧
    (∃ i, i < 3 ∧ ¬ occupied (slot one_of_three.portmap_tab i)) ∧
    ∃ j, j < 3 ∧ ¬ occupied (slot one_of_three.portmap_tab j) ∧
      (∀ i, i < j → occupied (slot one_of_three.portmap_tab i)) ∧
      slot (add_portmap 3 ⟨ESP_OK, ESP_FAIL, ESP_OK⟩ 6 80 3232236801 8080
        one_of_three).globals.portmap_tab j = ⟨3232236801, 80, 8080, 6, 1⟩ ∧
      (∀ i, i ≠ j →
        slot (add_portmap 3 ⟨ESP_OK, ESP_FAIL, ESP_OK⟩ 6 80 3232236801 8080
          one_of_three).globals.portmap_tab i = slot one_of_three.portmap_tab i) ∧
      (add_portmap 3 ⟨ESP_OK, ESP_FAIL, ESP_OK⟩ 6 80 3232236801 8080
        one_of_three).globals.portmap_tab.length = 3 :=
  ⟨rfl, ⟨1, by decide, by decide⟩,
    add_portmap_stores_rule 3 ⟨ESP_OK, ESP_FAIL, ESP_OK⟩ 6 80 3232236801 8080 one_of_three rfl
      ⟨1, by decide, by decide⟩⟩

/-! ## `del_portmap` removes the first match -/

theorem first_match_of_lowest {IP_PORTMAP_MAX : Nat} {tab : List portmap_table_entry}
    {proto mport j : Nat} (hj : j < IP_PORTMAP_MAX)
    (hm : rule_matches proto mport (slot tab j))
    (hlow : ∀ i, i < j → ¬ rule_matches proto mport (slot tab i)) :
    first_slot (is_match proto mport) tab 0 IP_PORTMAP_MAX = some j := by
  rw [first_slot_eq_some]
  refine ⟨Nat.zero_le _, by omega, (is_match_iff _ _ _).mpr hm, fun m _ hmj => ?_⟩
  have := hlow m hmj
  rw [← is_match_iff] at this
  simpa using this

theorem no_match_of_none {IP_PORTMAP_MAX : Nat} {tab : List portmap_table_entry}
    {proto mport : Nat}
    (hno : ∀ i, i < IP_PORTMAP_MAX → ¬ rule_matches proto mport (slot tab i)) :
    first_slot (is_match proto mport) tab 0 IP_PORTMAP_MAX = none := by
  rw [first_slot_eq_none]
  intro j _ hj
  have := hno j (by omega)
  rw [← is_match_iff] at this
  simpa using this

theorem del_portmap_globals_of_lowest {IP_PORTMAP_MAX : Nat} {g : Globals}
    {proto mport j : Nat} (nvs : NvsWrite) (hj : j < IP_PORTMAP_MAX)
    (hm : rule_matches proto mport (slot g.portmap_tab j))
    (hlow : ∀ i, i < j → ¬ rule_matches proto mport (slot g.portmap_tab i)) :
    (del_portmap IP_PORTMAP_MAX nvs proto mport g).globals = deleted g j := by
  rw [del_portmap_of_slot nvs proto mport (first_match_of_lowest hj hm hlow)]
  split <;> rfl

theorem add_portmap_globals_of_slot {IP_PORTMAP_MAX : Nat} {g : Globals} {j : Nat}
    (nvs : NvsWrite) (proto mport daddr dport : Nat)
    (h : first_slot is_free g.portmap_tab 0 IP_PORTMAP_MAX = some j) :
    (add_portmap IP_PORTMAP_MAX nvs proto mport daddr dport g).globals
      = added g j proto mport daddr dport := by
  rw [add_portmap_of_slot nvs proto mport daddr dport h]
  split <;> rfl

theorem first_free_of_ok {IP_PORTMAP_MAX : Nat} {g : Globals}
    {nvs : NvsWrite} {proto mport daddr dport : Nat}
    (h : (add_portmap IP_PORTMAP_MAX nvs proto mport daddr dport g).ret = ESP_OK) :
    ∃ j, first_slot is_free g.portmap_tab 0 IP_PORTMAP_MAX = some j := by
  cases hfs : first_slot is_free g.portmap_tab 0 IP_PORTMAP_MAX with
  | some j => exact ⟨j, rfl⟩
  | none =>
    simp only [add_portmap, hfs] at h
    exact absurd h (by decide)

theorem del_portmap_globals_of_match {IP_PORTMAP_MAX : Nat} {g : Globals}
    {proto mport j : Nat} (nvs : NvsWrite) (hj : j < IP_PORTMAP_MAX)
    (hm : rule_matches proto mport (slot g.portmap_tab j)) :
    ∃ k, k ≤ j ∧ rule_matches proto mport (slot g.portmap_tab k) ∧
      (∀ i, i < k → ¬ rule_matches proto mport (slot g.portmap_tab i)) ∧
      (del_portmap IP_PORTMAP_MAX nvs proto mport g).globals = deleted g k := by
  obtain ⟨k, hk⟩ := exists_first_slot (is_match proto mport) g.portmap_tab IP_PORTMAP_MAX
    ⟨j, hj, (is_match_iff _ _ _).mpr hm⟩
  obtain ⟨-, hkn, hkm, hklow⟩ := first_slot_eq_some.mp hk
  have hlow : ∀ i, i < k → ¬ rule_matches proto mport (slot g.portmap_tab i) := by
    intro i hi hmi
    have := hklow i (Nat.zero_le _) hi
    rw [(is_match_iff _ _ _).mpr hmi] at this
    exact absurd this (by decide)
  refine ⟨k, ?_, (is_match_iff _ _ _).mp hkm, hlow, ?_⟩
  · by_contra hkj
    exact hlow j (by omega) hm
  · rw [del_portmap_of_slot nvs proto mport hk]
    split <;> rfl

/-- C3 (as amended): for every table of `IP_PORTMAP_MAX` slots and every pair
`(proto, mport)`, `del_portmap` clears the valid flag of the lowest-indexed
occupied slot whose protocol and external port both match, keeps the other fields
of that slot and changes no other slot (and changes nothing when no slot
matches). In particular, let two rules with that `(proto, mport)` both be accepted
by `add_portmap` (it returned `ESP_OK`), the first into slot `j1`, the lowest free
slot of the table. Then the second sits in a slot `j2 > j1`, it stays occupied
after one `del_portmap (proto, mport)`, and that call clears slot `j1`, the
lower-indexed of the two, and nothing else exactly when no slot below `j1` holds a
rule for `(proto, mport)`. The destinations of the two rules are arbitrary,
different ones included. -/
theorem del_portmap_first_match (IP_PORTMAP_MAX : Nat) (nvs : NvsWrite) (proto mport : Nat)
    (g : Globals) (hlen : g.portmap_tab.length = IP_PORTMAP_MAX) :
    (∀ j, j < IP_PORTMAP_MAX → rule_matches proto mport (slot g.portmap_tab j) →
      (∀ i, i < j → ¬ rule_matches proto mport (slot g.portmap_tab i)) →
      slot (del_portmap IP_PORTMAP_MAX nvs proto mport g).globals.portmap_tab j
          = ⟨(slot g.portmap_tab j).daddr, (slot g.portmap_tab j).mport,
              (slot g.portmap_tab j).dport, (slot g.portmap_tab j).proto, 0⟩ ∧
        ∀ i, i ≠ j →
          slot (del_portmap IP_PORTMAP_MAX nvs proto mport g).globals.portmap_tab i
            = slot g.portmap_tab i) ∧
    ((∀ j, j < IP_PORTMAP_MAX → ¬ rule_matches proto mport (slot g.portmap_tab j)) →
      (del_portmap IP_PORTMAP_MAX nvs proto mport g).globals = g) ∧
    ∀ (nvs1 nvs2 : NvsWrite) (daddr1 dport1 daddr2 dport2 j1 : Nat),
      j1 < IP_PORTMAP_MAX → ¬ occupied (slot g.portmap_tab j1) →
      (∀ i, i < j1 → occupied (slot g.portmap_tab i)) →
      (add_portmap IP_PORTMAP_MAX nvs1 proto mport daddr1 dport1 g).ret = ESP_OK →
      (add_portmap IP_PORTMAP_MAX nvs2 proto mport daddr2 dport2
        (add_portmap IP_PORTMAP_MAX nvs1 proto mport daddr1 dport1 g).globals).ret = ESP_OK →
      ∃ j2, j1 < j2 ∧ j2 < IP_PORTMAP_MAX ∧
        slot (add_portmap IP_PORTMAP_MAX nvs2 proto mport daddr2 dport2
          (add_portmap IP_PORTMAP_MAX nvs1 proto mport daddr1 dport1 g).globals).globals.portmap_tab
          j1 = ⟨daddr1, mport, dport1, proto, 1⟩ ∧
        slot (add_portmap IP_PORTMAP_MAX nvs2 proto mport daddr2 dport2
          (add_portmap IP_PORTMAP_MAX nvs1 proto mport daddr1 dport1 g).globals).globals.portmap_tab
          j2 = ⟨daddr2, mport, dport2, proto, 1⟩ ∧
        slot (del_portmap IP_PORTMAP_MAX nvs proto mport
          (add_portmap IP_PORTMAP_MAX nvs2 proto mport daddr2 dport2
            (add_portmap IP_PORTMAP_MAX nvs1 proto mport daddr1 dport1 g).globals).globals
          ).globals.portmap_tab j2 = ⟨daddr2, mport, dport2, proto, 1⟩ ∧
        ((∀ i, i < j1 → ¬ rule_matches proto mport (slot g.portmap_tab i)) ↔
          (slot (del_portmap IP_PORTMAP_MAX nvs proto mport
              (add_portmap IP_PORTMAP_MAX nvs2 proto mport daddr2 dport2
                (add_portmap IP_PORTMAP_MAX nvs1 proto mport daddr1 dport1 g).globals).globals
              ).globals.portmap_tab j1 = ⟨daddr1, mport, dport1, proto, 0⟩ ∧
            ∀ i, i ≠ j1 →
              slot (del_portmap IP_PORTMAP_MAX nvs proto mport
                (add_portmap IP_PORTMAP_MAX nvs2 proto mport daddr2 dport2
                  (add_portmap IP_PORTMAP_MAX nvs1 proto mport daddr1 dport1 g).globals).globals
                ).globals.portmap_tab i
              = slot (add_portmap IP_PORTMAP_MAX nvs2 proto mport daddr2 dport2
                (add_portmap IP_PORTMAP_MAX nvs1 proto mport daddr1 dport1 g).globals
                ).globals.portmap_tab i)) := by
  refine ⟨?_, ?_, ?_⟩
  · intro j hj hm hlow
    rw [del_portmap_globals_of_lowest nvs hj hm hlow]
    exact ⟨slot_set_self _ (by omega), fun i hi => slot_set_ne _ hi⟩
  · intro hno
    rw [del_portmap_of_none nvs proto mport (no_match_of_none hno)]
  · intro nvs1 nvs2 daddr1 dport1 daddr2 dport2 j1 hj1n hj1free hj1below _ hok2
    have hj1 : first_slot is_free g.portmap_tab 0 IP_PORTMAP_MAX = some j1 := by
      rw [first_slot_eq_some]
      refine ⟨Nat.zero_le _, by omega, (is_free_iff _).mpr hj1free, fun m _ hm => ?_⟩
      have := hj1below m hm
      rw [← not_not (a := occupied (slot g.portmap_tab m)), ← is_free_iff] at this
      simpa using this
    have hg1 := add_portmap_globals_of_slot nvs1 proto mport daddr1 dport1 hj1
    rw [hg1] at hok2 ⊢
    obtain ⟨j2, hj2⟩ := first_free_of_ok hok2
    have hg2 := add_portmap_globals_of_slot nvs2 proto mport daddr2 dport2 hj2
    rw [hg2]
    obtain ⟨-, hj2n, hj2f, hj2b⟩ := first_slot_eq_some.mp hj2
    have hlen1 : (added g j1 proto mport daddr1 dport1).portmap_tab.length = IP_PORTMAP_MAX := by
      simp [added, hlen]
    have hs11 : slot (added g j1 proto mport daddr1 dport1).portmap_tab j1
        = ⟨daddr1, mport, dport1, proto, 1⟩ := slot_set_self _ (by omega)
    have hne : j2 ≠ j1 := by
      rintro rfl
      rw [hs11] at hj2f
      simp [is_free] at hj2f
    have hlt : j1 < j2 := by
      rcases Nat.lt_or_gt_of_ne hne with h | h
      · have h1 := hj1below j2 h
        have h2 : slot (added g j1 proto mport daddr1 dport1).portmap_tab j2
            = slot g.portmap_tab j2 := slot_set_ne _ hne
        rw [h2] at hj2f
        exact absurd h1 ((is_free_iff _).mp hj2f)
      · exact h
    have hs21 : slot (added (added g j1 proto mport daddr1 dport1) j2 proto mport daddr2
        dport2).portmap_tab j1 = ⟨daddr1, mport, dport1, proto, 1⟩ := by
      rw [← hs11]
      exact slot_set_ne _ (Ne.symm hne)
    have hs22 : slot (added (added g j1 proto mport daddr1 dport1) j2 proto mport daddr2
        dport2).portmap_tab j2 = ⟨daddr2, mport, dport2, proto, 1⟩ :=
      slot_set_self _ (by omega)
    have hold : ∀ i, i < j1 → slot (added (added g j1 proto mport daddr1 dport1) j2 proto mport
        daddr2 dport2).portmap_tab i = slot g.portmap_tab i := by
      intro i hi
      have e2 : slot (added (added g j1 proto mport daddr1 dport1) j2 proto mport daddr2
          dport2).portmap_tab i = slot (added g j1 proto mport daddr1 dport1).portmap_tab i :=
        slot_set_ne _ (by omega)
      have e1 : slot (added g j1 proto mport daddr1 dport1).portmap_tab i
          = slot g.portmap_tab i := slot_set_ne _ (by omega)
      rw [e2, e1]
    have hm : rule_matches proto mport (slot (added (added g j1 proto mport daddr1 dport1) j2
        proto mport daddr2 dport2).portmap_tab j1) := by
      rw [hs21]
      simp [rule_matches, occupied]
    have hlen2 : (added (added g j1 proto mport daddr1 dport1) j2 proto mport daddr2
        dport2).portmap_tab.length = IP_PORTMAP_MAX := by
      simp [added, hlen]
    obtain ⟨k, hkj, hkm, hklow, hdel⟩ := del_portmap_globals_of_match nvs hj1n hm
    rw [hdel]
    refine ⟨j2, hlt, by omega, hs21, hs22, ?_, ?_, ?_⟩
    · rw [← hs22]
      exact slot_set_ne _ (by omega)
    · intro hno
      have hk : k = j1 := by
        by_contra hne1
        have hklt : k < j1 := by omega
        rw [hold k hklt] at hkm
        exact hno k hklt hkm
      subst hk
      refine ⟨?_, fun i hi => slot_set_ne _ hi⟩
      rw [slot_deleted_self (by omega), hs21]
    · rintro ⟨hcl, -⟩ i hi hmi
      have hki : k ≤ i := by
        by_contra hlt1
        have := hklow i (by omega)
        rw [hold i hi] at this
        exact this hmi
      have hkeep : slot (deleted (added (added g j1 proto mport daddr1 dport1) j2 proto mport
          daddr2 dport2) k).portmap_tab j1 = ⟨daddr1, mport, dport1, proto, 1⟩ := by
        rw [← hs21]
        exact slot_set_ne _ (by omega)
      rw [hkeep] at hcl
      simp at hcl

/-- C3, the claim as stated fails on a table that `add_portmap` itself builds:
one accepted rule for TCP port 80 puts the boot table into the state `one_rule`
(slot 0 occupied); two more rules for TCP port 80 with other destinations are
then accepted into slots 1 and 2; `del_portmap (TCP, 80)` clears slot 0, and both
of the two rules accepted last stay occupied, so the lower-indexed of the two is
not removed. -/
theorem del_portmap_first_match_counterexample :
    (add_portmap 4 nvs_ok 6 80 3232236801 8080 (boot 4)).globals = one_rule ∧
    (add_portmap 4 nvs_ok 6 80 3232236802 8081 one_rule).ret = ESP_OK ∧
    (add_portmap 4 nvs_ok 6 80 3232236803 8082
      (add_portmap 4 nvs_ok 6 80 3232236802 8081 one_rule).globals).ret = ESP_OK ∧
    (add_portmap 4 nvs_ok 6 80 3232236803 8082
      (add_portmap 4 nvs_ok 6 80 3232236802 8081 one_rule).globals).globals.portmap_tab
      = [⟨3232236801, 80, 8080, 6, 1⟩, ⟨3232236802, 80, 8081, 6, 1⟩,
          ⟨3232236803, 80, 8082, 6, 1⟩, zero_entry] ∧
    (del_portmap 4 nvs_ok 6 80
      (add_portmap 4 nvs_ok 6 80 3232236803 8082
        (add_portmap 4 nvs_ok 6 80 3232236802 8081 one_rule).globals).globals).globals.portmap_tab
      = [⟨3232236801, 80, 8080, 6, 0⟩, ⟨3232236802, 80, 8081, 6, 1⟩,
          ⟨3232236803, 80, 8082, 6, 1⟩, zero_entry] := by
  decide

/-- C3 (as amended) on tables of four slots. On the first the rule for TCP port 80
in slot 2 is cleared although `nvs_open` fails. On the second, which holds a rule
for TCP port 80 in slot 2 only, two more rules for TCP port 80 are accepted into
slots 0 and `j2`; no slot below slot 0 can match, so `del_portmap` clears slot 0,
the lower-indexed of the two. -/
theorem del_portmap_first_match_witness :
    two_rules.portmap_tab.length = 4 ∧
    slot (del_portmap 4 nvs_open_fails 6 80 two_rules).globals.portmap_tab 2
      = ⟨3232236801, 80, 8080, 6, 0⟩ ∧
    rule_in_slot_two.portmap_tab.length = 4 ∧
    ¬ occupied (slot rule_in_slot_two.portmap_tab 0) ∧
    (add_portmap 4 nvs_ok 6 80 3232236802 8081 rule_in_slot_two).ret = ESP_OK ∧
    (add_portmap 4 nvs_ok 6 80 3232236803 8082
      (add_portmap 4 nvs_ok 6 80 3232236802 8081 rule_in_slot_two).globals).ret = ESP_OK ∧
    ∃ j2, 0 < j2 ∧ j2 < 4 ∧
      slot (add_portmap 4 nvs_ok 6 80 3232236803 8082
        (add_portmap 4 nvs_ok 6 80 3232236802 8081 rule_in_slot_two).globals).globals.portmap_tab
        0 = ⟨3232236802, 80, 8081, 6, 1⟩ ∧
      slot (add_portmap 4 nvs_ok 6 80 3232236803 8082
        (add_portmap 4 nvs_ok 6 80 3232236802 8081 rule_in_slot_two).globals).globals.portmap_tab
        j2 = ⟨3232236803, 80, 8082, 6, 1⟩ ∧
      slot (del_portmap 4 nvs_ok 6 80
        (add_portmap 4 nvs_ok 6 80 3232236803 8082
          (add_portmap 4 nvs_ok 6 80 3232236802 8081 rule_in_slot_two).globals).globals
        ).globals.portmap_tab j2 = ⟨3232236803, 80, 8082, 6, 1⟩ ∧
      ((∀ i, i < 0 → ¬ rule_matches 6 80 (slot rule_in_slot_two.portmap_tab i)) ↔
        (slot (del_portmap 4 nvs_ok 6 80
            (add_portmap 4 nvs_ok 6 80 3232236803 8082
              (add_portmap 4 nvs_ok 6 80 3232236802 8081 rule_in_slot_two).globals).globals
            ).globals.portmap_tab 0 = ⟨3232236802, 80, 8081, 6, 0⟩ ∧
          ∀ i, i ≠ 0 →
            slot (del_portmap 4 nvs_ok 6 80
              (add_portmap 4 nvs_ok 6 80 3232236803 8082
                (add_portmap 4 nvs_ok 6 80 3232236802 8081 rule_in_slot_two).globals).globals
              ).globals.portmap_tab i
            = slot (add_portmap 4 nvs_ok 6 80 3232236803 8082
              (add_portmap 4 nvs_ok 6 80 3232236802 8081 rule_in_slot_two).globals
              ).globals.portmap_tab i)) :=
  ⟨rfl,
    ((del_portmap_first_match 4 nvs_open_fails 6 80 two_rules rfl).1 2 (by decide) (by decide)
      (by decide)).1,
    rfl, by decide, by decide, by decide,
    (del_portmap_first_match 4 nvs_ok 6 80 rule_in_slot_two rfl).2.2 nvs_ok nvs_ok
      3232236802 8081 3232236803 8082 0 (by decide) (by decide) (by decide) (by decide)
      (by decide)⟩

/-! ## Reapplication on address acquisition -/

theorem map_slot_range (tab : List portmap_table_entry) :
    (List.range tab.length).map (slot tab) = tab := by
  apply List.ext_getElem
  · simp
  · intro i h1 h2
    simp [slot, List.getD_eq_getElem?_getD, h2]

theorem filterMap_slot_range {β : Type} (f : portmap_table_entry → Option β)
    (tab : List portmap_table_entry) :
    (List.range tab.length).filterMap (fun i => f (slot tab i)) = tab.filterMap f := by
  have h := List.filterMap_map (slot tab) f (List.range tab.length)
  rw [map_slot_range] at h
  rw [h]
  rfl

theorem filterMap_occupied {β : Type} (f : portmap_table_entry → β)
    (tab : List portmap_table_entry) :
    tab.filterMap (fun e => if e.valid ≠ 0 then some (f e) else none)
      = (occupied_slots tab).map f := by
  induction tab with
  | nil => rfl
  | cons e tab ih =>
    by_cases hv : e.valid = 0
    · simp [List.filterMap_cons, occupied_slots, hv] at ih ⊢
      exact ih
    · simp [List.filterMap_cons, occupied_slots, hv] at ih ⊢
      exact ih

theorem delete_portmap_tab_eq (g : Globals) :
    delete_portmap_tab g.portmap_tab.length g
      = (occupied_slots g.portmap_tab).map fun e => Call.ip_portmap_remove e.proto e.mport := by
  unfold delete_portmap_tab
  rw [filterMap_slot_range
    (fun e => if e.valid ≠ 0 then some (Call.ip_portmap_remove e.proto e.mport) else none)]
  exact filterMap_occupied _ _

theorem apply_portmap_tab_eq (g : Globals) :
    apply_portmap_tab g.portmap_tab.length g
      = (occupied_slots g.portmap_tab).map fun e =>
          Call.ip_portmap_add e.proto g.my_ip e.mport e.daddr e.dport := by
  unfold apply_portmap_tab
  rw [filterMap_slot_range
    (fun e => if e.valid ≠ 0 then
      some (Call.ip_portmap_add e.proto g.my_ip e.mport e.daddr e.dport) else none)]
  exact filterMap_occupied _ _

theorem nat_calls_map_remove (l : List portmap_table_entry) :
    nat_calls (l.map fun e => Call.ip_portmap_remove e.proto e.mport)
      = l.map fun e => Call.ip_portmap_remove e.proto e.mport := by
  induction l with
  | nil => rfl
  | cons e l ih =>
    simp only [nat_calls, List.map_cons, List.filter_cons, Call.is_nat, if_true] at ih ⊢
    rw [ih]

theorem nat_calls_map_add (a : Nat) (l : List portmap_table_entry) :
    nat_calls (l.map fun e => Call.ip_portmap_add e.proto a e.mport e.daddr e.dport)
      = l.map fun e => Call.ip_portmap_add e.proto a e.mport e.daddr e.dport := by
  induction l with
  | nil => rfl
  | cons e l ih =>
    simp only [nat_calls, List.map_cons, List.filter_cons, Call.is_nat, if_true] at ih ⊢
    rw [ih]

/-- C4: for every table of `IP_PORTMAP_MAX` slots with `N` occupied slots and
every address `B`, whatever `my_ip` and `ap_connect` were before, the NAT engine
calls made by the handler on `IP_EVENT_STA_GOT_IP` with address `B` are exactly
`N` calls of `ip_portmap_remove`, one per occupied slot in slot order with that
slot's protocol and external port, followed by exactly `N` calls of
`ip_portmap_add`, one per occupied slot in slot order with that slot's protocol,
external port, internal address and internal port and with `B` as translation
address. -/
theorem got_ip_reapplies_table (IP_PORTMAP_MAX N : Nat) (dns_ok : Bool) (B : Nat) (g : Globals)
    (hlen : g.portmap_tab.length = IP_PORTMAP_MAX)
    (hN : (occupied_slots g.portmap_tab).length = N) :
    ∃ removes adds,
      nat_calls (wifi_event_handler IP_PORTMAP_MAX dns_ok (Event.IP_EVENT_STA_GOT_IP B) g).2
        = removes ++ adds ∧
      removes = (occupied_slots g.portmap_tab).map
        (fun e => Call.ip_portmap_remove e.proto e.mport) ∧
      adds = (occupied_slots g.portmap_tab).map
        (fun e => Call.ip_portmap_add e.proto B e.mport e.daddr e.dport) ∧
      removes.length = N ∧ adds.length = N := by
  refine ⟨_, _, ?_, rfl, rfl, by simp [hN], by simp [hN]⟩
  subst hlen
  have hd := delete_portmap_tab_eq { g with ap_connect := true, my_ip := B }
  have ha := apply_portmap_tab_eq { g with ap_connect := true, my_ip := B }
  simp only at hd ha
  simp only [wifi_event_handler, hd, ha]
  have h1 := nat_calls_map_remove (occupied_slots g.portmap_tab)
  have h2 := nat_calls_map_add B (occupied_slots g.portmap_tab)
  unfold nat_calls at h1 h2 ⊢
  rw [List.filter_append, List.filter_append, List.filter_append, List.filter_append, h1, h2]
  cases dns_ok <;> simp [Call.is_nat]

/-- C4 on a table of four slots with two rules and the new address 10.0.1.1. -/
theorem got_ip_reapplies_table_witness :
    two_rules.portmap_tab.length = 4 ∧ (occupied_slots two_rules.portmap_tab).length = 2 ∧
    ∃ removes adds,
      nat_calls (wifi_event_handler 4 true (Event.IP_EVENT_STA_GOT_IP 167772417) two_rules).2
        = removes ++ adds ∧
      removes = (occupied_slots two_rules.portmap_tab).map
        (fun e => Call.ip_portmap_remove e.proto e.mport) ∧
      adds = (occupied_slots two_rules.portmap_tab).map
        (fun e => Call.ip_portmap_add e.proto 167772417 e.mport e.daddr e.dport) ∧
      removes.length = 2 ∧ adds.length = 2 :=
  ⟨rfl, rfl, got_ip_reapplies_table 4 2 true 167772417 two_rules rfl rfl⟩

/-! ## Storing and loading the table -/

theorem entry_bytes_length (e : portmap_table_entry) : (entry_bytes e).length = sizeof_entry :=
  rfl

theorem entry_of_bytes_entry_bytes (e : portmap_table_entry) (he : entry_in_range e) :
    entry_of_bytes (entry_bytes e) = e := by
  obtain ⟨d, m, p, q, v⟩ := e
  obtain ⟨h1, h2, h3, h4, h5⟩ := he
  simp only at h1 h2 h3 h4 h5
  simp only [entry_of_bytes, entry_bytes, List.getD_cons_zero, List.getD_cons_succ,
    portmap_table_entry.mk.injEq]
  refine ⟨?_, ?_, ?_, ?_, ?_⟩ <;> omega

theorem portmap_tab_bytes_length (tab : List portmap_table_entry) :
    (portmap_tab_bytes tab).length = sizeof_portmap_tab tab.length := by
  induction tab with
  | nil => rfl
  | cons e tab ih =>
    simp only [portmap_tab_bytes, List.length_append, entry_bytes_length, ih, List.length_cons,
      sizeof_portmap_tab, sizeof_entry]
    omega

theorem portmap_tab_of_bytes_bytes (tab : List portmap_table_entry)
    (h : ∀ e, e ∈ tab → entry_in_range e) :
    portmap_tab_of_bytes tab.length (portmap_tab_bytes tab) = tab := by
  induction tab with
  | nil => rfl
  | cons e tab ih =>
    simp only [portmap_tab_bytes, List.length_cons, portmap_tab_of_bytes]
    rw [List.take_left' (entry_bytes_length e), List.drop_left' (entry_bytes_length e),
      entry_of_bytes_entry_bytes e (h e (List.mem_cons_self _ _)),
      ih (fun x hx => h x (List.mem_cons_of_mem _ hx))]

theorem table_ok_boot (IP_PORTMAP_MAX : Nat) : table_ok IP_PORTMAP_MAX (boot IP_PORTMAP_MAX).portmap_tab := by
  refine ⟨by simp [boot], fun e he => ?_⟩
  simp only [boot, List.mem_replicate] at he
  rw [he.2]
  decide

theorem table_ok_add_portmap {IP_PORTMAP_MAX : Nat} {g : Globals} (c : AddCall)
    (hc : c.in_range) (hg : table_ok IP_PORTMAP_MAX g.portmap_tab) :
    table_ok IP_PORTMAP_MAX
      (add_portmap IP_PORTMAP_MAX c.nvs c.proto c.mport c.daddr c.dport g).globals.portmap_tab := by
  cases hfs : first_slot is_free g.portmap_tab 0 IP_PORTMAP_MAX with
  | none =>
    simp only [add_portmap, hfs]
    exact hg
  | some j =>
    rw [add_portmap_globals_of_slot c.nvs c.proto c.mport c.daddr c.dport hfs]
    refine ⟨by simp [added, hg.1], fun e he => ?_⟩
    rcases List.mem_or_eq_of_mem_set he with h | h
    · exact hg.2 e h
    · rw [h]
      obtain ⟨h1, h2, h3, h4⟩ := hc
      exact ⟨h3, h2, h4, h1, show 1 < 2 ^ 8 by decide⟩

theorem table_ok_add_portmap_seq {IP_PORTMAP_MAX : Nat} (calls : List AddCall)
    (hcalls : ∀ a, a ∈ calls → a.in_range) (g : Globals)
    (hg : table_ok IP_PORTMAP_MAX g.portmap_tab) :
    table_ok IP_PORTMAP_MAX (add_portmap_seq IP_PORTMAP_MAX calls g).portmap_tab := by
  induction calls generalizing g with
  | nil => exact hg
  | cons c cs ih =>
    simp only [add_portmap_seq]
    exact ih (fun a ha => hcalls a (List.mem_cons_of_mem _ ha)) _
      (table_ok_add_portmap c (hcalls c (List.mem_cons_self _ _)) hg)

theorem get_portmap_tab_holding (IP_PORTMAP_MAX : Nat) (tab : List portmap_table_entry)
    (htab : table_ok IP_PORTMAP_MAX tab) (g0 : Globals) :
    get_portmap_tab IP_PORTMAP_MAX (nvs_holding (portmap_tab_bytes tab)) g0
      = ⟨{ g0 with portmap_tab := tab }, ESP_OK,
          [Call.nvs_open, Call.nvs_get_blob_len, Call.nvs_get_blob, Call.nvs_close]⟩ := by
  obtain ⟨hlen, hrange⟩ := htab
  have hb := portmap_tab_bytes_length tab
  rw [hlen] at hb
  have hd := portmap_tab_of_bytes_bytes tab hrange
  rw [hlen] at hd
  simp [get_portmap_tab, nvs_holding, hb, hd]

theorem set_blob_mem_add_portmap {IP_PORTMAP_MAX : Nat} {g : Globals} {blob : List Nat}
    (nvs : NvsWrite) (proto mport daddr dport : Nat)
    (h : Call.nvs_set_blob blob
      ∈ (add_portmap IP_PORTMAP_MAX nvs proto mport daddr dport g).calls) :
    blob = portmap_tab_bytes
      (add_portmap IP_PORTMAP_MAX nvs proto mport daddr dport g).globals.portmap_tab := by
  cases hfs : first_slot is_free g.portmap_tab 0 IP_PORTMAP_MAX with
  | none =>
    simp [add_portmap, hfs] at h
  | some j =>
    rw [add_portmap_globals_of_slot nvs proto mport daddr dport hfs]
    rw [add_portmap_of_slot nvs proto mport daddr dport hfs] at h
    by_cases ho : nvs.open_err = ESP_OK
    · by_cases hs : nvs.set_err = ESP_OK <;> simpa [ho, hs, store_calls] using h
    · simp [ho] at h

theorem set_blob_mem_of_ok {IP_PORTMAP_MAX : Nat} {g : Globals}
    (nvs : NvsWrite) (proto mport daddr dport : Nat)
    (h : (add_portmap IP_PORTMAP_MAX nvs proto mport daddr dport g).ret = ESP_OK) :
    ∃ blob, Call.nvs_set_blob blob
      ∈ (add_portmap IP_PORTMAP_MAX nvs proto mport daddr dport g).calls := by
  obtain ⟨j, hj⟩ := first_free_of_ok h
  rw [add_portmap_of_slot nvs proto mport daddr dport hj] at h ⊢
  by_cases ho : nvs.open_err = ESP_OK
  · exact ⟨portmap_tab_bytes (added g j proto mport daddr dport).portmap_tab,
      by simp [ho, store_calls]⟩
  · simp [ho] at h

/-- C5: take any table produced from the boot table by a sequence of
`add_portmap` calls (arguments within their C types, any store outcomes), the last
of which is `c`. A call of `add_portmap` that returns `ESP_OK` hands a blob to
`nvs_set_blob`; and for every blob `c` handed to `nvs_set_blob`, `get_portmap_tab`
run on any in-memory state against a store holding that blob returns `ESP_OK`
and leaves a table equal, slot for slot, to the table that was persisted: the
same occupied rules in the same slots. -/
theorem get_portmap_tab_roundtrip (IP_PORTMAP_MAX : Nat) (calls : List AddCall) (c : AddCall)
    (g0 : Globals) (hcalls : ∀ a, a ∈ calls → a.in_range) (hc : c.in_range) :
    ((add_portmap IP_PORTMAP_MAX c.nvs c.proto c.mport c.daddr c.dport
        (add_portmap_seq IP_PORTMAP_MAX calls (boot IP_PORTMAP_MAX))).ret = ESP_OK →
      ∃ blob, Call.nvs_set_blob blob ∈
        (add_portmap IP_PORTMAP_MAX c.nvs c.proto c.mport c.daddr c.dport
          (add_portmap_seq IP_PORTMAP_MAX calls (boot IP_PORTMAP_MAX))).calls) ∧
    ∀ blob, Call.nvs_set_blob blob ∈
        (add_portmap IP_PORTMAP_MAX c.nvs c.proto c.mport c.daddr c.dport
          (add_portmap_seq IP_PORTMAP_MAX calls (boot IP_PORTMAP_MAX))).calls →
      (get_portmap_tab IP_PORTMAP_MAX (nvs_holding blob) g0).ret = ESP_OK ∧
      (get_portmap_tab IP_PORTMAP_MAX (nvs_holding blob) g0).globals.portmap_tab
        = (add_portmap IP_PORTMAP_MAX c.nvs c.proto c.mport c.daddr c.dport
            (add_portmap_seq IP_PORTMAP_MAX calls (boot IP_PORTMAP_MAX))).globals.portmap_tab := by
  refine ⟨set_blob_mem_of_ok _ _ _ _ _, fun blob hblob => ?_⟩
  have hok := table_ok_add_portmap c hc
    (table_ok_add_portmap_seq calls hcalls _ (table_ok_boot IP_PORTMAP_MAX))
  rw [set_blob_mem_add_portmap _ _ _ _ _ hblob, get_portmap_tab_holding _ _ hok]
  exact ⟨rfl, rfl⟩

/-- C5 for two calls on a table of three slots, the second with a failing
`nvs_commit`. -/
theorem get_portmap_tab_roundtrip_witness :
    (∀ a, a ∈ [call_ssh] → a.in_range) ∧ call_dns.in_range ∧
    ((add_portmap 3 call_dns.nvs call_dns.proto call_dns.mport call_dns.daddr call_dns.dport
        (add_portmap_seq 3 [call_ssh] (boot 3))).ret = ESP_OK →
      ∃ blob, Call.nvs_set_blob blob ∈
        (add_portmap 3 call_dns.nvs call_dns.proto call_dns.mport call_dns.daddr call_dns.dport
          (add_portmap_seq 3 [call_ssh] (boot 3))).calls) ∧
    ∀ blob, Call.nvs_set_blob blob ∈
        (add_portmap 3 call_dns.nvs call_dns.proto call_dns.mport call_dns.daddr call_dns.dport
          (add_portmap_seq 3 [call_ssh] (boot 3))).calls →
      (get_portmap_tab 3 (nvs_holding blob) (boot 3)).ret = ESP_OK ∧
      (get_portmap_tab 3 (nvs_holding blob) (boot 3)).globals.portmap_tab
        = (add_portmap 3 call_dns.nvs call_dns.proto call_dns.mport call_dns.daddr call_dns.dport
            (add_portmap_seq 3 [call_ssh] (boot 3))).globals.portmap_tab :=
  ⟨by decide, by decide,
    get_portmap_tab_roundtrip 3 [call_ssh] call_dns (boot 3) (by decide) (by decide)⟩

/-! ## Loading a blob of the wrong length -/

/-- C6, the claim as stated fails: the table in memory holds two rules and the
store holds a blob of 47 bytes where `sizeof(portmap_tab)` is 48; after
`get_portmap_tab` the two rules are still in the table, which is not empty. -/
theorem get_portmap_tab_invalid_length_counterexample :
    sizeof_portmap_tab 4 = 48 ∧
    (get_portmap_tab 4 ⟨ESP_OK, ESP_OK, 47, ESP_OK, List.replicate 47 0⟩ two_rules).ret
      = ESP_ERR_NVS_INVALID_LENGTH ∧
    (get_portmap_tab 4 ⟨ESP_OK, ESP_OK, 47, ESP_OK, List.replicate 47 0⟩ two_rules
      ).globals.portmap_tab = two_rules.portmap_tab ∧
    occupied (slot (get_portmap_tab 4 ⟨ESP_OK, ESP_OK, 47, ESP_OK, List.replicate 47 0⟩
      two_rules).globals.portmap_tab 0) := by
  decide

/-- C6 (as amended): when the store opens and reports a blob whose length is not
`sizeof(portmap_tab)`, `get_portmap_tab` returns `ESP_ERR_NVS_INVALID_LENGTH` (it
returns, and the value is an ordinary error code), never reads the blob, and
leaves the globals, so every slot of the table, as they were; called on the
zeroed table of boot time it therefore leaves every slot unoccupied. -/
theorem get_portmap_tab_invalid_length (IP_PORTMAP_MAX : Nat) (nvs : NvsRead) (g : Globals)
    (hopen : nvs.open_err = ESP_OK) (hquery : nvs.len_err = ESP_OK)
    (hlen : nvs.len ≠ sizeof_portmap_tab IP_PORTMAP_MAX) :
    get_portmap_tab IP_PORTMAP_MAX nvs g
      = ⟨g, ESP_ERR_NVS_INVALID_LENGTH,
          [Call.nvs_open, Call.nvs_get_blob_len, Call.nvs_close]⟩ ∧
    ∀ i, ¬ occupied (slot (get_portmap_tab IP_PORTMAP_MAX nvs
      { g with portmap_tab := (boot IP_PORTMAP_MAX).portmap_tab }).globals.portmap_tab i) := by
  have h : ∀ g' : Globals, get_portmap_tab IP_PORTMAP_MAX nvs g'
      = ⟨g', ESP_ERR_NVS_INVALID_LENGTH,
          [Call.nvs_open, Call.nvs_get_blob_len, Call.nvs_close]⟩ := by
    intro g'
    simp [get_portmap_tab, hopen, hquery, hlen]
  refine ⟨h g, fun i => ?_⟩
  rw [h]
  simp only [boot, slot, occupied, List.getD_eq_getElem?_getD]
  by_cases hi : i < IP_PORTMAP_MAX
  · simp [hi, zero_entry]
  · simp [List.getElem?_eq_none (l := List.replicate IP_PORTMAP_MAX zero_entry) (by simpa using hi),
      zero_entry]

/-- C6 (as amended) on a table of four slots and a stored blob of 47 bytes. -/
theorem get_portmap_tab_invalid_length_witness :
    (47 : Nat) ≠ sizeof_portmap_tab 4 ∧
    get_portmap_tab 4 ⟨ESP_OK, ESP_OK, 47, ESP_OK, List.replicate 47 0⟩ two_rules
      = ⟨two_rules, ESP_ERR_NVS_INVALID_LENGTH,
          [Call.nvs_open, Call.nvs_get_blob_len, Call.nvs_close]⟩ ∧
    ∀ i, ¬ occupied (slot (get_portmap_tab 4 ⟨ESP_OK, ESP_OK, 47, ESP_OK, List.replicate 47 0⟩
      { two_rules with portmap_tab := (boot 4).portmap_tab }).globals.portmap_tab i) :=
  ⟨by decide,
    get_portmap_tab_invalid_length 4 ⟨ESP_OK, ESP_OK, 47, ESP_OK, List.replicate 47 0⟩ two_rules
      rfl rfl (by decide)⟩

/-! ## The NAT engine call of `add_portmap` -/

theorem nat_calls_store_calls (nvs : NvsWrite) (tab : List portmap_table_entry) :
    nat_calls (store_calls nvs tab) = [] := by
  by_cases hs : nvs.set_err = ESP_OK <;> simp [nat_calls, store_calls, hs, Call.is_nat]

/-- C7, the claim as stated fails: on the boot state (`ap_connect = false`,
`my_ip = 0`, no uplink address) with a free slot, `add_portmap` still calls
`ip_portmap_add`, with translation address 0. -/
theorem add_portmap_nat_call_counterexample :
    (boot 4).ap_connect = false ∧ (boot 4).my_ip = 0 ∧
    nat_calls (add_portmap 4 nvs_ok 6 80 3232236801 8080 (boot 4)).calls
      = [Call.ip_portmap_add 6 0 80 3232236801 8080] := by
  decide

/-- C7 (as amended): for every table with a free slot and every rule,
`add_portmap` makes exactly one NAT engine call, `ip_portmap_add` with the
current value of `my_ip` as translation address, when `nvs_open` succeeded, and
none when `nvs_open` failed; when `nvs_open` succeeded the table holding the new
rule is handed to `nvs_set_blob`. Whether the station is connected plays no part:
the calls are the same for either value of `ap_connect`. -/
theorem add_portmap_nat_call (IP_PORTMAP_MAX : Nat) (nvs : NvsWrite)
    (proto mport daddr dport : Nat) (g : Globals)
    (hfree : ∃ i, i < IP_PORTMAP_MAX ∧ ¬ occupied (slot g.portmap_tab i)) :
    nat_calls (add_portmap IP_PORTMAP_MAX nvs proto mport daddr dport g).calls
      = (if nvs.open_err = ESP_OK then [Call.ip_portmap_add proto g.my_ip mport daddr dport]
          else []) ∧
    (nvs.open_err = ESP_OK →
      Call.nvs_set_blob (portmap_tab_bytes
          (add_portmap IP_PORTMAP_MAX nvs proto mport daddr dport g).globals.portmap_tab)
        ∈ (add_portmap IP_PORTMAP_MAX nvs proto mport daddr dport g).calls) ∧
    ∀ b : Bool,
      (add_portmap IP_PORTMAP_MAX nvs proto mport daddr dport { g with ap_connect := b }).calls
        = (add_portmap IP_PORTMAP_MAX nvs proto mport daddr dport g).calls := by
  obtain ⟨j, hj⟩ := exists_first_slot is_free g.portmap_tab IP_PORTMAP_MAX (by
      obtain ⟨i, hi, hocc⟩ := hfree
      exact ⟨i, hi, (is_free_iff _).mpr hocc⟩)
  have hb : ∀ b : Bool, first_slot is_free ({ g with ap_connect := b } : Globals).portmap_tab 0
      IP_PORTMAP_MAX = some j := fun _ => hj
  refine ⟨?_, ?_, ?_⟩
  · rw [add_portmap_of_slot nvs proto mport daddr dport hj]
    by_cases ho : nvs.open_err = ESP_OK
    · have := nat_calls_store_calls nvs (added g j proto mport daddr dport).portmap_tab
      unfold nat_calls at this ⊢
      simp [ho, List.filter_append, this, Call.is_nat]
    · simp [ho, nat_calls, Call.is_nat]
  · intro ho
    rw [add_portmap_of_slot nvs proto mport daddr dport hj]
    simp [ho, store_calls]
  · intro b
    rw [add_portmap_of_slot nvs proto mport daddr dport hj,
      add_portmap_of_slot nvs proto mport daddr dport (hb b)]
    by_cases ho : nvs.open_err = ESP_OK <;> simp [ho, added]

/-- C7 (as amended) on a table with three free slots while the station is not
connected. -/
theorem add_portmap_nat_call_witness :
    (∃ i, i < 4 ∧ ¬ occupied (slot one_rule.portmap_tab i)) ∧
    nat_calls (add_portmap 4 nvs_ok 17 53 3232236803 5353 one_rule).calls
      = (if nvs_ok.open_err = ESP_OK then [Call.ip_portmap_add 17 one_rule.my_ip 53 3232236803 5353]
          else []) ∧
    (nvs_ok.open_err = ESP_OK →
      Call.nvs_set_blob (portmap_tab_bytes
          (add_portmap 4 nvs_ok 17 53 3232236803 5353 one_rule).globals.portmap_tab)
        ∈ (add_portmap 4 nvs_ok 17 53 3232236803 5353 one_rule).calls) ∧
    ∀ b : Bool,
      (add_portmap 4 nvs_ok 17 53 3232236803 5353 { one_rule with ap_connect := b }).calls
        = (add_portmap 4 nvs_ok 17 53 3232236803 5353 one_rule).calls :=
  ⟨⟨1, by decide, by decide⟩,
    add_portmap_nat_call 4 nvs_ok 17 53 3232236803 5353 one_rule ⟨1, by decide, by decide⟩⟩

/-! ## The calls of `del_portmap` -/

/-- C8, the claim as stated fails: the station is connected and no occupied slot
matches `(TCP, 81)`; `del_portmap` makes no call at all, so the NAT engine's
remove primitive is not called and the table is not persisted. -/
theorem del_portmap_calls_counterexample :
    two_rules.ap_connect = true ∧
    (∀ i, i < 4 → ¬ rule_matches 6 81 (slot two_rules.portmap_tab i)) ∧
    (del_portmap 4 nvs_ok 6 81 two_rules).calls = [] := by
  decide

/-- C8 (as amended): for every table and every pair `(proto, mport)`, connected
or not: when an occupied slot matches and `nvs_open` succeeded, `del_portmap`
hands the full table (with that slot cleared) to `nvs_set_blob`, commits when the
write succeeded, and then calls `ip_portmap_remove (proto, mport)` exactly once;
when an occupied slot matches and `nvs_open` failed it makes no other call; when
no occupied slot matches it makes no call at all, neither to the NAT engine nor
to the store. -/
theorem del_portmap_calls (IP_PORTMAP_MAX : Nat) (nvs : NvsWrite) (proto mport : Nat)
    (g : Globals) :
    ((∃ i, i < IP_PORTMAP_MAX ∧ rule_matches proto mport (slot g.portmap_tab i)) →
      (del_portmap IP_PORTMAP_MAX nvs proto mport g).calls
        = if nvs.open_err = ESP_OK then
            [Call.nvs_open, Call.nvs_set_blob (portmap_tab_bytes
              (del_portmap IP_PORTMAP_MAX nvs proto mport g).globals.portmap_tab)]
            ++ (if nvs.set_err = ESP_OK then [Call.nvs_commit] else [])
            ++ [Call.nvs_close, Call.ip_portmap_remove proto mport]
          else [Call.nvs_open]) ∧
    ((∀ i, i < IP_PORTMAP_MAX → ¬ rule_matches proto mport (slot g.portmap_tab i)) →
      (del_portmap IP_PORTMAP_MAX nvs proto mport g).calls = []) := by
  constructor
  · intro hex
    obtain ⟨j, hj⟩ := exists_first_slot (is_match proto mport) g.portmap_tab
      IP_PORTMAP_MAX (by
        obtain ⟨i, hi, hm⟩ := hex
        exact ⟨i, hi, (is_match_iff _ _ _).mpr hm⟩)
    rw [del_portmap_of_slot nvs proto mport hj]
    by_cases ho : nvs.open_err = ESP_OK
    · by_cases hs : nvs.set_err = ESP_OK <;> simp [ho, hs, store_calls]
    · simp [ho]
  · intro hno
    rw [del_portmap_of_none nvs proto mport (no_match_of_none hno)]

/-- C8 (as amended) on a table of four slots, once with a matching rule and once
without. -/
theorem del_portmap_calls_witness :
    (∃ i, i < 4 ∧ rule_matches 6 80 (slot two_rules.portmap_tab i)) ∧
    (∀ i, i < 4 → ¬ rule_matches 6 81 (slot two_rules.portmap_tab i)) ∧
    (del_portmap 4 nvs_ok 6 80 two_rules).calls
      = (if nvs_ok.open_err = ESP_OK then
          [Call.nvs_open, Call.nvs_set_blob (portmap_tab_bytes
            (del_portmap 4 nvs_ok 6 80 two_rules).globals.portmap_tab)]
          ++ (if nvs_ok.set_err = ESP_OK then [Call.nvs_commit] else [])
          ++ [Call.nvs_close, Call.ip_portmap_remove 6 80]
        else [Call.nvs_open]) ∧
    (del_portmap 4 nvs_ok 6 81 two_rules).calls = [] :=
  ⟨⟨2, by decide, by decide⟩, by decide,
    (del_portmap_calls 4 nvs_ok 6 80 two_rules).1 ⟨2, by decide, by decide⟩,
    (del_portmap_calls 4 nvs_ok 6 81 two_rules).2 (by decide)⟩

/-! ## Deleting a rule that is not there -/

/-- C9: when no occupied slot matches `(proto, mport)`, two calls of
`del_portmap (proto, mport)` in a row both return `ESP_OK`, and the globals, so
the table slot for slot, are after each call what they were before the first
call, whatever the store calls would return. -/
theorem del_portmap_no_match_twice (IP_PORTMAP_MAX : Nat) (nvs1 nvs2 : NvsWrite)
    (proto mport : Nat) (g : Globals)
    (hno : ∀ i, i < IP_PORTMAP_MAX → ¬ rule_matches proto mport (slot g.portmap_tab i)) :
    (del_portmap IP_PORTMAP_MAX nvs1 proto mport g).ret = ESP_OK ∧
    (del_portmap IP_PORTMAP_MAX nvs1 proto mport g).globals = g ∧
    (del_portmap IP_PORTMAP_MAX nvs2 proto mport
      (del_portmap IP_PORTMAP_MAX nvs1 proto mport g).globals).ret = ESP_OK ∧
    (del_portmap IP_PORTMAP_MAX nvs2 proto mport
      (del_portmap IP_PORTMAP_MAX nvs1 proto mport g).globals).globals = g := by
  have h1 := del_portmap_of_none nvs1 proto mport (no_match_of_none hno)
  have h2 := del_portmap_of_none nvs2 proto mport (no_match_of_none hno)
  rw [h1]
  simp only [h2, and_self]

/-- C9 on a table of four slots that holds TCP rules only, deleting UDP port 80. -/
theorem del_portmap_no_match_twice_witness :
    (∀ i, i < 4 → ¬ rule_matches 17 80 (slot two_rules.portmap_tab i)) ∧
    (del_portmap 4 nvs_open_fails 17 80 two_rules).ret = ESP_OK ∧
    (del_portmap 4 nvs_open_fails 17 80 two_rules).globals = two_rules ∧
    (del_portmap 4 nvs_ok 17 80
      (del_portmap 4 nvs_open_fails 17 80 two_rules).globals).ret = ESP_OK ∧
    (del_portmap 4 nvs_ok 17 80
      (del_portmap 4 nvs_open_fails 17 80 two_rules).globals).globals = two_rules :=
  ⟨by decide, del_portmap_no_match_twice 4 nvs_open_fails nvs_ok 17 80 two_rules (by decide)⟩

/-! ## What the mutations return -/

/-- C10, the claim as stated fails: with a free slot but a failing `nvs_open`,
`add_portmap` returns the error of `nvs_open`; with a matching slot and a failing
`nvs_open`, `del_portmap` returns that error too. -/
theorem mutation_ret_counterexample :
    (∃ i, i < 4 ∧ ¬ occupied (slot (boot 4).portmap_tab i)) ∧
    (add_portmap 4 nvs_open_fails 6 80 3232236801 8080 (boot 4)).ret = ESP_FAIL ∧
    (del_portmap 4 nvs_open_fails 6 80 two_rules).ret = ESP_FAIL ∧
    ESP_FAIL ≠ ESP_OK :=
  ⟨⟨0, by decide, by decide⟩, by decide, by decide, by decide⟩

/-- C10 (as amended): the results of `nvs_set_blob` and `nvs_commit` never reach
the caller of a table mutation, the result of `nvs_open` does. For every table,
every argument and every outcome of the store calls, `add_portmap` returns an
error exactly when the table has no free slot or `nvs_open` failed, and
`del_portmap` returns an error exactly when an occupied slot matched and
`nvs_open` failed; in both, the value returned is the same for all results of
`nvs_set_blob` and `nvs_commit`. -/
theorem mutation_ret (IP_PORTMAP_MAX : Nat) (nvs : NvsWrite) (proto mport daddr dport : Nat)
    (g : Globals) :
    ((add_portmap IP_PORTMAP_MAX nvs proto mport daddr dport g).ret ≠ ESP_OK ↔
      (∀ i, i < IP_PORTMAP_MAX → occupied (slot g.portmap_tab i)) ∨ nvs.open_err ≠ ESP_OK) ∧
    ((del_portmap IP_PORTMAP_MAX nvs proto mport g).ret ≠ ESP_OK ↔
      (∃ i, i < IP_PORTMAP_MAX ∧ rule_matches proto mport (slot g.portmap_tab i))
        ∧ nvs.open_err ≠ ESP_OK) ∧
    ∀ set_err commit_err : esp_err_t,
      (add_portmap IP_PORTMAP_MAX ⟨nvs.open_err, set_err, commit_err⟩ proto mport daddr dport g).ret
        = (add_portmap IP_PORTMAP_MAX nvs proto mport daddr dport g).ret ∧
      (del_portmap IP_PORTMAP_MAX ⟨nvs.open_err, set_err, commit_err⟩ proto mport g).ret
        = (del_portmap IP_PORTMAP_MAX nvs proto mport g).ret := by
  refine ⟨?_, ?_, ?_⟩
  · cases hfs : first_slot is_free g.portmap_tab 0 IP_PORTMAP_MAX with
    | none =>
      have hfull : ∀ i, i < IP_PORTMAP_MAX → occupied (slot g.portmap_tab i) := by
        intro i hi
        have := first_slot_eq_none.mp hfs i (Nat.zero_le _) (by omega)
        by_contra hocc
        rw [(is_free_iff _).mpr hocc] at this
        exact absurd this (by decide)
      simp only [add_portmap, hfs]
      exact ⟨fun _ => Or.inl hfull, fun _ => by decide⟩
    | some j =>
      obtain ⟨-, hjn, hjf, -⟩ := first_slot_eq_some.mp hfs
      have hnot : ¬ ∀ i, i < IP_PORTMAP_MAX → occupied (slot g.portmap_tab i) :=
        fun h => (is_free_iff _).mp hjf (h j (by omega))
      rw [add_portmap_of_slot nvs proto mport daddr dport hfs]
      by_cases ho : nvs.open_err = ESP_OK <;> simp [ho, hnot]
  · cases hfs : first_slot (is_match proto mport) g.portmap_tab 0 IP_PORTMAP_MAX with
    | none =>
      have hno : ¬ ∃ i, i < IP_PORTMAP_MAX ∧ rule_matches proto mport (slot g.portmap_tab i) := by
        rintro ⟨i, hi, hm⟩
        have := first_slot_eq_none.mp hfs i (Nat.zero_le _) (by omega)
        rw [(is_match_iff _ _ _).mpr hm] at this
        exact absurd this (by decide)
      simp only [del_portmap, hfs]
      simp [hno]
    | some j =>
      obtain ⟨-, hjn, hjm, -⟩ := first_slot_eq_some.mp hfs
      have hex : ∃ i, i < IP_PORTMAP_MAX ∧ rule_matches proto mport (slot g.portmap_tab i) :=
        ⟨j, by omega, (is_match_iff _ _ _).mp hjm⟩
      rw [del_portmap_of_slot nvs proto mport hfs]
      by_cases ho : nvs.open_err = ESP_OK <;> simp [ho, hex]
  · intro set_err commit_err
    constructor
    · cases hfs : first_slot is_free g.portmap_tab 0 IP_PORTMAP_MAX with
      | none => simp only [add_portmap, hfs]
      | some j =>
        rw [add_portmap_of_slot _ proto mport daddr dport hfs,
          add_portmap_of_slot nvs proto mport daddr dport hfs]
        by_cases ho : nvs.open_err = ESP_OK <;> simp [ho]
    · cases hfs : first_slot (is_match proto mport) g.portmap_tab 0 IP_PORTMAP_MAX with
      | none => simp only [del_portmap, hfs]
      | some j =>
        rw [del_portmap_of_slot _ proto mport hfs, del_portmap_of_slot nvs proto mport hfs]
        by_cases ho : nvs.open_err = ESP_OK <;> simp [ho]

/-! ## The station events -/

/-- C11, the claim as stated fails: the station was connected with address
10.0.0.1; after `WIFI_EVENT_STA_DISCONNECTED` the variable `my_ip` still holds
10.0.0.1, not the value 0 of a state that never had an address. -/
theorem sta_disconnected_counterexample :
    two_rules.my_ip = 167772161 ∧
    (wifi_event_handler 4 true Event.WIFI_EVENT_STA_DISCONNECTED two_rules).1.my_ip
      = 167772161 ∧
    (wifi_event_handler 4 true Event.WIFI_EVENT_STA_DISCONNECTED two_rules).1.my_ip
      ≠ (boot 4).my_ip := by
  decide

/-- C11 (as amended): for every state, handling `WIFI_EVENT_STA_DISCONNECTED`
sets `ap_connect` to false, leaves `my_ip` at the value it had (the uplink address
is not cleared), calls `esp_wifi_connect` exactly once, makes no NAT engine call,
and leaves the port-map table and `connect_count` unchanged. -/
theorem sta_disconnected (IP_PORTMAP_MAX : Nat) (dns_ok : Bool) (g : Globals) :
    (wifi_event_handler IP_PORTMAP_MAX dns_ok Event.WIFI_EVENT_STA_DISCONNECTED g).1
      = { g with ap_connect := false } ∧
    (wifi_event_handler IP_PORTMAP_MAX dns_ok Event.WIFI_EVENT_STA_DISCONNECTED g).1.ap_connect
      = false ∧
    (wifi_event_handler IP_PORTMAP_MAX dns_ok Event.WIFI_EVENT_STA_DISCONNECTED g).1.my_ip
      = g.my_ip ∧
    (wifi_event_handler IP_PORTMAP_MAX dns_ok Event.WIFI_EVENT_STA_DISCONNECTED g).1.portmap_tab
      = g.portmap_tab ∧
    (wifi_event_handler IP_PORTMAP_MAX dns_ok Event.WIFI_EVENT_STA_DISCONNECTED g).2.count
      Call.esp_wifi_connect = 1 ∧
    nat_calls (wifi_event_handler IP_PORTMAP_MAX dns_ok Event.WIFI_EVENT_STA_DISCONNECTED g).2
      = [] := by
  refine ⟨rfl, rfl, rfl, rfl, ?_, ?_⟩
  · simp only [wifi_event_handler]
    decide
  · simp only [wifi_event_handler]
    decide

theorem mem_apply_portmap_tab {IP_PORTMAP_MAX : Nat} {g : Globals}
    {proto maddr mport daddr dport : Nat}
    (h : Call.ip_portmap_add proto maddr mport daddr dport ∈ apply_portmap_tab IP_PORTMAP_MAX g) :
    maddr = g.my_ip := by
  simp only [apply_portmap_tab, List.mem_filterMap] at h
  obtain ⟨i, -, hi⟩ := h
  by_cases hv : (slot g.portmap_tab i).valid = 0
  · simp [hv] at hi
  · simp only [ne_eq, hv, not_false_eq_true, if_true, Option.some.injEq,
      Call.ip_portmap_add.injEq] at hi
    exact hi.2.1.symm

theorem not_mem_delete_portmap_tab {IP_PORTMAP_MAX : Nat} {g : Globals}
    {proto maddr mport daddr dport : Nat} :
    Call.ip_portmap_add proto maddr mport daddr dport ∉ delete_portmap_tab IP_PORTMAP_MAX g := by
  intro h
  simp only [delete_portmap_tab, List.mem_filterMap] at h
  obtain ⟨i, -, hi⟩ := h
  by_cases hv : (slot g.portmap_tab i).valid = 0 <;> simp [hv] at hi

/-- C12: for every state and every address `addr`, handling
`IP_EVENT_STA_GOT_IP` leaves `my_ip = addr` and `ap_connect = true`; the calls it
makes are those of `delete_portmap_tab` and then `apply_portmap_tab` run on the
globals that already hold the new address and flag, followed by the DNS and
event-group calls; every `ip_portmap_add` among them has `addr` as translation
address; and the port-map table (and `connect_count`) is unchanged. -/
theorem got_ip_sets_address (IP_PORTMAP_MAX : Nat) (dns_ok : Bool) (addr : Nat) (g : Globals) :
    (wifi_event_handler IP_PORTMAP_MAX dns_ok (Event.IP_EVENT_STA_GOT_IP addr) g).1.my_ip
      = addr ∧
    (wifi_event_handler IP_PORTMAP_MAX dns_ok (Event.IP_EVENT_STA_GOT_IP addr) g).1.ap_connect
      = true ∧
    (wifi_event_handler IP_PORTMAP_MAX dns_ok (Event.IP_EVENT_STA_GOT_IP addr) g).1.portmap_tab
      = g.portmap_tab ∧
    (wifi_event_handler IP_PORTMAP_MAX dns_ok (Event.IP_EVENT_STA_GOT_IP addr) g).1.connect_count
      = g.connect_count ∧
    (wifi_event_handler IP_PORTMAP_MAX dns_ok (Event.IP_EVENT_STA_GOT_IP addr) g).2
      = delete_portmap_tab IP_PORTMAP_MAX
          (wifi_event_handler IP_PORTMAP_MAX dns_ok (Event.IP_EVENT_STA_GOT_IP addr) g).1
        ++ apply_portmap_tab IP_PORTMAP_MAX
          (wifi_event_handler IP_PORTMAP_MAX dns_ok (Event.IP_EVENT_STA_GOT_IP addr) g).1
        ++ [Call.esp_netif_get_dns_info]
        ++ (if dns_ok then [Call.esp_netif_set_dns_info] else [])
        ++ [Call.xEventGroupSetBits] ∧
    ∀ proto maddr mport daddr dport,
      Call.ip_portmap_add proto maddr mport daddr dport
        ∈ (wifi_event_handler IP_PORTMAP_MAX dns_ok (Event.IP_EVENT_STA_GOT_IP addr) g).2 →
      maddr = addr := by
  refine ⟨rfl, rfl, rfl, rfl, rfl, ?_⟩
  intro proto maddr mport daddr dport h
  simp only [wifi_event_handler, List.mem_append] at h
  rcases h with (((h | h) | h) | h) | h
  · exact absurd h not_mem_delete_portmap_tab
  · exact mem_apply_portmap_tab h
  · simp at h
  · cases dns_ok <;> simp at h
  · simp at h

/-- C12 on a table of four slots with two rules: both `ip_portmap_add` calls carry
the new address 10.0.1.1. -/
theorem got_ip_sets_address_witness :
    Call.ip_portmap_add 6 167772417 80 3232236801 8080
      ∈ (wifi_event_handler 4 false (Event.IP_EVENT_STA_GOT_IP 167772417) two_rules).2 ∧
    (167772417 : Nat) = 167772417 :=
  ⟨by decide,
    (got_ip_sets_address 4 false 167772417 two_rules).2.2.2.2.2 6 167772417 80 3232236801 8080
      (by decide)⟩

/-! ## The counter of connected clients -/

theorem add_portmap_connect_count (IP_PORTMAP_MAX : Nat) (nvs : NvsWrite)
    (proto mport daddr dport : Nat) (g : Globals) :
    (add_portmap IP_PORTMAP_MAX nvs proto mport daddr dport g).globals.connect_count
      = g.connect_count := by
  cases hfs : first_slot is_free g.portmap_tab 0 IP_PORTMAP_MAX with
  | none => simp only [add_portmap, hfs]
  | some j =>
    rw [add_portmap_globals_of_slot nvs proto mport daddr dport hfs]
    rfl

theorem del_portmap_connect_count (IP_PORTMAP_MAX : Nat) (nvs : NvsWrite)
    (proto mport : Nat) (g : Globals) :
    (del_portmap IP_PORTMAP_MAX nvs proto mport g).globals.connect_count = g.connect_count := by
  cases hfs : first_slot (is_match proto mport) g.portmap_tab 0 IP_PORTMAP_MAX with
  | none => simp only [del_portmap, hfs]
  | some j =>
    rw [del_portmap_of_slot nvs proto mport hfs]
    split <;> rfl

theorem get_portmap_tab_connect_count (IP_PORTMAP_MAX : Nat) (nvs : NvsRead) (g : Globals) :
    (get_portmap_tab IP_PORTMAP_MAX nvs g).globals.connect_count = g.connect_count := by
  unfold get_portmap_tab
  split
  · rfl
  · split
    · split
      · rfl
      · split <;> rfl
    · rfl

/-- C16: the counter `connect_count` holds a value below `2 ^ 16`. On
`WIFI_EVENT_AP_STACONNECTED` it becomes `(connect_count + 1) mod 2 ^ 16`, on
`WIFI_EVENT_AP_STADISCONNECTED` it becomes `(connect_count - 1) mod 2 ^ 16`
(computed over the integers), so from 0 the latter gives 65535; a connected event
followed by a disconnected event gives back the globals as they were. Both events
leave the port-map table, `my_ip` and `ap_connect` unchanged and make no call.
No other event and none of `add_portmap`, `del_portmap`, `get_portmap_tab`
changes the counter. -/
theorem connect_count_events (IP_PORTMAP_MAX : Nat) (dns_ok : Bool) (g : Globals)
    (hc : g.connect_count < 2 ^ 16) :
    wifi_event_handler IP_PORTMAP_MAX dns_ok Event.WIFI_EVENT_AP_STACONNECTED g
      = ({ g with connect_count := (g.connect_count + 1) % 2 ^ 16 }, []) ∧
    (wifi_event_handler IP_PORTMAP_MAX dns_ok Event.WIFI_EVENT_AP_STADISCONNECTED g).2 = [] ∧
    (wifi_event_handler IP_PORTMAP_MAX dns_ok Event.WIFI_EVENT_AP_STADISCONNECTED g).1.portmap_tab
      = g.portmap_tab ∧
    (wifi_event_handler IP_PORTMAP_MAX dns_ok Event.WIFI_EVENT_AP_STADISCONNECTED g).1.my_ip
      = g.my_ip ∧
    (wifi_event_handler IP_PORTMAP_MAX dns_ok Event.WIFI_EVENT_AP_STADISCONNECTED g).1.ap_connect
      = g.ap_connect ∧
    (((wifi_event_handler IP_PORTMAP_MAX dns_ok Event.WIFI_EVENT_AP_STADISCONNECTED
        g).1.connect_count : Nat) : Int) = ((g.connect_count : Int) - 1) % 2 ^ 16 ∧
    (g.connect_count = 0 →
      (wifi_event_handler IP_PORTMAP_MAX dns_ok Event.WIFI_EVENT_AP_STADISCONNECTED
        g).1.connect_count = 65535) ∧
    (wifi_event_handler IP_PORTMAP_MAX dns_ok Event.WIFI_EVENT_AP_STADISCONNECTED
      (wifi_event_handler IP_PORTMAP_MAX dns_ok Event.WIFI_EVENT_AP_STACONNECTED g).1).1 = g ∧
    (wifi_event_handler IP_PORTMAP_MAX dns_ok Event.WIFI_EVENT_AP_STACONNECTED g).1.connect_count
      < 2 ^ 16 ∧
    (wifi_event_handler IP_PORTMAP_MAX dns_ok Event.WIFI_EVENT_AP_STADISCONNECTED
      g).1.connect_count < 2 ^ 16 ∧
    (∀ ev, ev ≠ Event.WIFI_EVENT_AP_STACONNECTED → ev ≠ Event.WIFI_EVENT_AP_STADISCONNECTED →
      (wifi_event_handler IP_PORTMAP_MAX dns_ok ev g).1.connect_count = g.connect_count) ∧
    (∀ (nvs : NvsWrite) (proto mport daddr dport : Nat),
      (add_portmap IP_PORTMAP_MAX nvs proto mport daddr dport g).globals.connect_count
        = g.connect_count ∧
      (del_portmap IP_PORTMAP_MAX nvs proto mport g).globals.connect_count
        = g.connect_count) ∧
    ∀ nvs : NvsRead,
      (get_portmap_tab IP_PORTMAP_MAX nvs g).globals.connect_count = g.connect_count := by
  refine ⟨?_, ?_, ?_, ?_, ?_, ?_, ?_, ?_, ?_, ?_, ?_, ?_, ?_⟩
  · simp only [wifi_event_handler]
  · simp only [wifi_event_handler]
  · simp only [wifi_event_handler]
  · simp only [wifi_event_handler]
  · simp only [wifi_event_handler]
  · simp only [wifi_event_handler]
    omega
  · intro h0
    simp only [wifi_event_handler, h0]
    decide
  · obtain ⟨c, a, ip, tab⟩ := g
    simp only at hc
    simp only [wifi_event_handler, Globals.mk.injEq, and_true]
    omega
  · simp only [wifi_event_handler]
    omega
  · simp only [wifi_event_handler]
    omega
  · intro ev h1 h2
    cases ev <;> first | exact absurd rfl h1 | exact absurd rfl h2 | rfl
  · intro nvs proto mport daddr dport
    exact ⟨add_portmap_connect_count _ _ _ _ _ _ _, del_portmap_connect_count _ _ _ _ _⟩
  · intro nvs
    exact get_portmap_tab_connect_count _ _ _

/-- C16 on the boot state, where the counter is 0: a client-disconnected event
leaves 65535 in it. -/
theorem connect_count_events_witness :
    (boot 4).connect_count < 2 ^ 16 ∧ (boot 4).connect_count = 0 ∧
    (wifi_event_handler 4 true Event.WIFI_EVENT_AP_STADISCONNECTED (boot 4)).1.connect_count
      = 65535 :=
  ⟨by decide, rfl, (connect_count_events 4 true (boot 4) (by decide)).2.2.2.2.2.2.1 rfl⟩

/-! ## The number of occupied slots -/

theorem occupied_count_le (tab : List portmap_table_entry) : occupied_count tab ≤ tab.length :=
  List.length_filter_le _ _

theorem occupied_count_set (tab : List portmap_table_entry) (j : Nat) (e : portmap_table_entry)
    (hj : j < tab.length) :
    occupied_count (tab.set j e) + (if (slot tab j).valid ≠ 0 then 1 else 0)
      = occupied_count tab + (if e.valid ≠ 0 then 1 else 0) := by
  induction tab generalizing j with
  | nil => simp at hj
  | cons a tab ih =>
    cases j with
    | zero =>
      simp only [List.set_cons_zero, occupied_count, occupied_slots, List.filter_cons, slot,
        List.getD_cons_zero]
      by_cases ha : a.valid = 0 <;> by_cases he : e.valid = 0 <;> simp [ha, he]
    | succ j =>
      have := ih j (by simpa using hj)
      simp only [occupied_count, occupied_slots, slot, List.set_cons_succ, List.filter_cons,
        List.getD_cons_succ] at this ⊢
      by_cases ha : a.valid = 0 <;> simp [ha] at this ⊢ <;> omega

theorem run_op_length {IP_PORTMAP_MAX : Nat} (op : TableOp) {g : Globals}
    (hlen : g.portmap_tab.length = IP_PORTMAP_MAX) :
    (run_op IP_PORTMAP_MAX op g).portmap_tab.length = IP_PORTMAP_MAX := by
  cases op with
  | add nvs proto mport daddr dport =>
    simp only [run_op]
    cases hfs : first_slot is_free g.portmap_tab 0 IP_PORTMAP_MAX with
    | none =>
      simp only [add_portmap, hfs]
      exact hlen
    | some j =>
      rw [add_portmap_globals_of_slot nvs proto mport daddr dport hfs]
      simp [added, hlen]
  | del nvs proto mport =>
    simp only [run_op]
    cases hfs : first_slot (is_match proto mport) g.portmap_tab 0 IP_PORTMAP_MAX with
    | none =>
      simp only [del_portmap, hfs]
      exact hlen
    | some j =>
      rw [del_portmap_of_slot nvs proto mport hfs]
      split <;> simp [deleted, hlen]

theorem run_ops_length {IP_PORTMAP_MAX : Nat} (ops : List TableOp) (g : Globals)
    (hlen : g.portmap_tab.length = IP_PORTMAP_MAX) :
    (run_ops IP_PORTMAP_MAX ops g).portmap_tab.length = IP_PORTMAP_MAX := by
  induction ops generalizing g with
  | nil => exact hlen
  | cons op ops ih => exact ih _ (run_op_length op hlen)

/-- C14: take a table of `IP_PORTMAP_MAX` slots and any finite sequence of
`add_portmap` and `del_portmap` calls, with any store outcomes. After every
prefix of the sequence the table has exactly `IP_PORTMAP_MAX` slots and at most
`IP_PORTMAP_MAX` of them are occupied. An `add_portmap` that returns `ESP_OK`
raises the number of occupied slots by exactly one, and a `del_portmap` for which
an occupied slot matches lowers it by exactly one. -/
theorem table_ops_bounded (IP_PORTMAP_MAX : Nat) (ops : List TableOp) (g : Globals)
    (hlen : g.portmap_tab.length = IP_PORTMAP_MAX) :
    (∀ k, (run_ops IP_PORTMAP_MAX (ops.take k) g).portmap_tab.length = IP_PORTMAP_MAX ∧
      occupied_count (run_ops IP_PORTMAP_MAX (ops.take k) g).portmap_tab ≤ IP_PORTMAP_MAX) ∧
    (∀ (nvs : NvsWrite) (proto mport daddr dport : Nat),
      (add_portmap IP_PORTMAP_MAX nvs proto mport daddr dport g).ret = ESP_OK →
      occupied_count (add_portmap IP_PORTMAP_MAX nvs proto mport daddr dport g).globals.portmap_tab
        = occupied_count g.portmap_tab + 1) ∧
    ∀ (nvs : NvsWrite) (proto mport : Nat),
      (∃ i, i < IP_PORTMAP_MAX ∧ rule_matches proto mport (slot g.portmap_tab i)) →
      occupied_count (del_portmap IP_PORTMAP_MAX nvs proto mport g).globals.portmap_tab + 1
        = occupied_count g.portmap_tab := by
  refine ⟨fun k => ?_, ?_, ?_⟩
  · have h := run_ops_length (ops.take k) g hlen
    refine ⟨h, ?_⟩
    have := occupied_count_le (run_ops IP_PORTMAP_MAX (ops.take k) g).portmap_tab
    omega
  · intro nvs proto mport daddr dport hok
    obtain ⟨j, hj⟩ := first_free_of_ok hok
    obtain ⟨-, hjn, hjf, -⟩ := first_slot_eq_some.mp hj
    rw [add_portmap_globals_of_slot nvs proto mport daddr dport hj]
    have h := occupied_count_set g.portmap_tab j ⟨daddr, mport, dport, proto, 1⟩ (by omega)
    have hv : (slot g.portmap_tab j).valid = 0 := by simpa [is_free] using hjf
    simp only [hv, ne_eq, not_true_eq_false, if_false, Nat.add_zero, one_ne_zero,
      not_false_eq_true, if_true] at h
    exact h
  · intro nvs proto mport hex
    obtain ⟨j, hj⟩ := exists_first_slot (is_match proto mport) g.portmap_tab IP_PORTMAP_MAX (by
      obtain ⟨i, hi, hm⟩ := hex
      exact ⟨i, hi, (is_match_iff _ _ _).mpr hm⟩)
    obtain ⟨-, hjn, hjm, -⟩ := first_slot_eq_some.mp hj
    have hg : (del_portmap IP_PORTMAP_MAX nvs proto mport g).globals = deleted g j := by
      rw [del_portmap_of_slot nvs proto mport hj]
      split <;> rfl
    rw [hg]
    have h := occupied_count_set g.portmap_tab j
      ⟨(slot g.portmap_tab j).daddr, (slot g.portmap_tab j).mport, (slot g.portmap_tab j).dport,
        (slot g.portmap_tab j).proto, 0⟩ (by omega)
    have hv : (slot g.portmap_tab j).valid ≠ 0 := ((is_match_iff _ _ _).mp hjm).1
    simp only [hv, ne_eq, not_false_eq_true, if_true, not_true_eq_false, if_false,
      Nat.add_zero] at h
    exact h

/-- C14 on a table of four slots with two rules and a sequence of five mutations:
the table ends with four slots, all occupied. -/
theorem table_ops_bounded_witness :
    two_rules.portmap_tab.length = 4 ∧
    (run_ops 4 (five_ops.take 5) two_rules).portmap_tab.length = 4 ∧
    occupied_count (run_ops 4 (five_ops.take 5) two_rules).portmap_tab ≤ 4 ∧
    occupied_count (run_ops 4 five_ops two_rules).portmap_tab = 4 ∧
    occupied_count (add_portmap 4 nvs_ok 17 53 3232236803 5353 two_rules).globals.portmap_tab
      = occupied_count two_rules.portmap_tab + 1 ∧
    occupied_count (del_portmap 4 nvs_ok 6 80 two_rules).globals.portmap_tab + 1
      = occupied_count two_rules.portmap_tab :=
  ⟨rfl, ((table_ops_bounded 4 five_ops two_rules rfl).1 5).1,
    ((table_ops_bounded 4 five_ops two_rules rfl).1 5).2, by decide,
    (table_ops_bounded 4 five_ops two_rules rfl).2.1 nvs_ok 17 53 3232236803 5353 (by decide),
    (table_ops_bounded 4 five_ops two_rules rfl).2.2 nvs_ok 6 80 ⟨2, by decide, by decide⟩⟩

/-! ## The authentication mode of the access point -/

/-- C13, the claim as stated fails: with the 64-byte `password` field of
`wifi_ap_config_t` and a configured passphrase of 64 characters, the resolved
passphrase has 64 characters, the access point is secured, and its password is
only the first 63 characters of the passphrase. -/
theorem wifi_init_ap_auth_counterexample :
    ap_pass_buf DEFAULT_AP_PASS (some (List.replicate 64 97)) = List.replicate 64 97 ∧
    (wifi_init_ap_config false 32 64 DEFAULT_AP_SSID DEFAULT_AP_PASS none
      (some (List.replicate 64 97))).authmode = wifi_auth_mode_t.WIFI_AUTH_WPA2_PSK ∧
    (wifi_init_ap_config false 32 64 DEFAULT_AP_SSID DEFAULT_AP_PASS none
      (some (List.replicate 64 97))).password = List.replicate 63 97 ∧
    (wifi_init_ap_config false 32 64 DEFAULT_AP_SSID DEFAULT_AP_PASS none
      (some (List.replicate 64 97))).password
      ≠ ap_pass_buf DEFAULT_AP_PASS (some (List.replicate 64 97)) := by
  decide

/-- C13 (as amended): for every resolved AP passphrase (the content of
`ap_pass_buf`), the access point is configured with auth mode OPEN if and only
if the passphrase is shorter than 8 characters, and then with an empty password;
otherwise the auth mode is WPA2-PSK, or WPA2/WPA3-PSK when WPA3-SAE is enabled,
and the password is the passphrase cut to the `sizeof(ap_config.ap.password) - 1`
characters that `strlcpy` copies, which is the passphrase itself whenever it is
shorter than `sizeof(ap_config.ap.password)`. -/
theorem wifi_init_ap_auth (wpa3_sae : Bool) (sizeof_ssid sizeof_password : Nat)
    (default_ap_ssid default_ap_pass : List Nat) (ap_ssid ap_passwd : Option (List Nat)) :
    ((wifi_init_ap_config wpa3_sae sizeof_ssid sizeof_password default_ap_ssid default_ap_pass
        ap_ssid ap_passwd).authmode = wifi_auth_mode_t.WIFI_AUTH_OPEN ↔
      (ap_pass_buf default_ap_pass ap_passwd).length < 8) ∧
    ((ap_pass_buf default_ap_pass ap_passwd).length < 8 →
      (wifi_init_ap_config wpa3_sae sizeof_ssid sizeof_password default_ap_ssid default_ap_pass
        ap_ssid ap_passwd).password = []) ∧
    (8 ≤ (ap_pass_buf default_ap_pass ap_passwd).length →
      (wifi_init_ap_config wpa3_sae sizeof_ssid sizeof_password default_ap_ssid default_ap_pass
        ap_ssid ap_passwd).authmode
        = (if wpa3_sae then wifi_auth_mode_t.WIFI_AUTH_WPA2_WPA3_PSK
            else wifi_auth_mode_t.WIFI_AUTH_WPA2_PSK) ∧
      (wifi_init_ap_config wpa3_sae sizeof_ssid sizeof_password default_ap_ssid default_ap_pass
        ap_ssid ap_passwd).password
        = (ap_pass_buf default_ap_pass ap_passwd).take (sizeof_password - 1) ∧
      ((ap_pass_buf default_ap_pass ap_passwd).length < sizeof_password →
        (wifi_init_ap_config wpa3_sae sizeof_ssid sizeof_password default_ap_ssid default_ap_pass
          ap_ssid ap_passwd).password = ap_pass_buf default_ap_pass ap_passwd)) := by
  by_cases hlt : (ap_pass_buf default_ap_pass ap_passwd).length < 8
  · refine ⟨?_, ?_, ?_⟩
    · simp [wifi_init_ap_config, hlt]
    · intro _
      simp [wifi_init_ap_config, hlt]
    · intro h8
      omega
  · refine ⟨?_, ?_, ?_⟩
    · simp only [wifi_init_ap_config, hlt, if_false, iff_false]
      cases wpa3_sae <;> simp
    · intro h
      exact absurd h hlt
    · intro _
      refine ⟨by simp [wifi_init_ap_config, hlt], by simp [wifi_init_ap_config, hlt, strlcpy],
        fun hsz => ?_⟩
      simp only [wifi_init_ap_config, hlt, if_false, strlcpy]
      exact List.take_of_length_le (by omega)

/-- C13 (as amended) on three configurations with the 64-byte password field:
no passphrase at all, a passphrase of 7 characters and one of 9 characters. -/
theorem wifi_init_ap_auth_witness :
    (wifi_init_ap_config true 32 64 DEFAULT_AP_SSID DEFAULT_AP_PASS none none).password = [] ∧
    (wifi_init_ap_config true 32 64 DEFAULT_AP_SSID DEFAULT_AP_PASS none
      (some (List.replicate 7 97))).password = [] ∧
    ((wifi_init_ap_config true 32 64 DEFAULT_AP_SSID DEFAULT_AP_PASS none
      (some (List.replicate 9 97))).authmode = wifi_auth_mode_t.WIFI_AUTH_WPA2_WPA3_PSK ∧
    (wifi_init_ap_config true 32 64 DEFAULT_AP_SSID DEFAULT_AP_PASS none
      (some (List.replicate 9 97))).password
      = (ap_pass_buf DEFAULT_AP_PASS (some (List.replicate 9 97))).take (64 - 1) ∧
    ((ap_pass_buf DEFAULT_AP_PASS (some (List.replicate 9 97))).length < 64 →
      (wifi_init_ap_config true 32 64 DEFAULT_AP_SSID DEFAULT_AP_PASS none
        (some (List.replicate 9 97))).password
        = ap_pass_buf DEFAULT_AP_PASS (some (List.replicate 9 97)))) :=
  ⟨(wifi_init_ap_auth true 32 64 DEFAULT_AP_SSID DEFAULT_AP_PASS none none).2.1 (by decide),
    (wifi_init_ap_auth true 32 64 DEFAULT_AP_SSID DEFAULT_AP_PASS none
      (some (List.replicate 7 97))).2.1 (by decide),
    (wifi_init_ap_auth true 32 64 DEFAULT_AP_SSID DEFAULT_AP_PASS none
      (some (List.replicate 9 97))).2.2 (by decide)⟩

end NozzleNAT
